import Mathlib

/-!
Verification of the media-processing pipeline of the peiyin2 backend
(`server/worker.py`, `server/database.py`, `server/app_routes.py`).

The Python source is shallowly embedded: pure helpers become Lean
functions, the SQLAlchemy stores become lists of records, the filesystem
becomes a list of existing paths, and each external tool invocation is
driven by an environment value that says whether the tool succeeds and
what it writes.  Machine integers are `Nat` reduced modulo `2 ^ 32` where
the Python code relies on 32-bit arithmetic (inside MD5).
-/

namespace Peiyin

/-! ### `worker.py` — URL hashing (`get_url_hash`, `get_cache_key`)

`get_url_hash` is `hashlib.md5(url.encode()).hexdigest()[:16]`.  The MD5
algorithm (RFC 1321), as computed by `hashlib.md5` on the UTF-8 encoding
of the url, is embedded below on lists of byte values. -/

/-- 32-bit truncation used throughout MD5. -/
def u32 (n : Nat) : Nat := n % 4294967296

/-- 32-bit left rotation. -/
def rotl32 (x s : Nat) : Nat := ((x <<< s) ||| (x >>> (32 - s))) % 4294967296

/-- The 64 MD5 sine-derived constants `K[i]` (RFC 1321). -/
def md5K : List Nat :=
  [0xd76aa478, 0xe8c7b756, 0x242070db, 0xc1bdceee,
   0xf57c0faf, 0x4787c62a, 0xa8304613, 0xfd469501,
   0x698098d8, 0x8b44f7af, 0xffff5bb1, 0x895cd7be,
   0x6b901122, 0xfd987193, 0xa679438e, 0x49b40821,
   0xf61e2562, 0xc040b340, 0x265e5a51, 0xe9b6c7aa,
   0xd62f105d, 0x02441453, 0xd8a1e681, 0xe7d3fbc8,
   0x21e1cde6, 0xc33707d6, 0xf4d50d87, 0x455a14ed,
   0xa9e3e905, 0xfcefa3f8, 0x676f02d9, 0x8d2a4c8a,
   0xfffa3942, 0x8771f681, 0x6d9d6122, 0xfde5380c,
   0xa4beea44, 0x4bdecfa9, 0xf6bb4b60, 0xbebfbc70,
   0x289b7ec6, 0xeaa127fa, 0xd4ef3085, 0x04881d05,
   0xd9d4d039, 0xe6db99e5, 0x1fa27cf8, 0xc4ac5665,
   0xf4292244, 0x432aff97, 0xab9423a7, 0xfc93a039,
   0x655b59c3, 0x8f0ccc92, 0xffeff47d, 0x85845dd1,
   0x6fa87e4f, 0xfe2ce6e0, 0xa3014314, 0x4e0811a1,
   0xf7537e82, 0xbd3af235, 0x2ad7d2bb, 0xeb86d391]

/-- The 64 MD5 per-round rotation amounts `s[i]` (RFC 1321). -/
def md5S : List Nat :=
  [7, 12, 17, 22, 7, 12, 17, 22, 7, 12, 17, 22, 7, 12, 17, 22,
   5, 9, 14, 20, 5, 9, 14, 20, 5, 9, 14, 20, 5, 9, 14, 20,
   4, 11, 16, 23, 4, 11, 16, 23, 4, 11, 16, 23, 4, 11, 16, 23,
   6, 10, 15, 21, 6, 10, 15, 21, 6, 10, 15, 21, 6, 10, 15, 21]

structure MD5State where
  a : Nat
  b : Nat
  c : Nat
  d : Nat
deriving DecidableEq

def md5F (b c d : Nat) : Nat := (b &&& c) ||| ((b ^^^ 0xffffffff) &&& d)

def md5G (b c d : Nat) : Nat := (b &&& d) ||| (c &&& (d ^^^ 0xffffffff))

def md5H (b c d : Nat) : Nat := b ^^^ c ^^^ d

def md5I (b c d : Nat) : Nat := c ^^^ (b ||| (d ^^^ 0xffffffff))

/-- One of the 64 MD5 rounds; `M j` is word `j` of the current chunk. -/
def md5Round (M : Nat → Nat) (st : MD5State) (i : Nat) : MD5State :=
  let fg : Nat × Nat :=
    if i < 16 then (md5F st.b st.c st.d, i)
    else if i < 32 then (md5G st.b st.c st.d, (5 * i + 1) % 16)
    else if i < 48 then (md5H st.b st.c st.d, (3 * i + 5) % 16)
    else (md5I st.b st.c st.d, (7 * i) % 16)
  let x := u32 (st.a + fg.1 + md5K.getD i 0 + M fg.2)
  { a := st.d, b := u32 (st.b + rotl32 x (md5S.getD i 0)), c := st.b, d := st.c }

/-- Process one 64-byte chunk. -/
def md5ProcessChunk (st : MD5State) (M : Nat → Nat) : MD5State :=
  let r := (List.range 64).foldl (md5Round M) st
  { a := u32 (st.a + r.a), b := u32 (st.b + r.b),
    c := u32 (st.c + r.c), d := u32 (st.d + r.d) }

/-- Little-endian 32-bit word `j` of the chunk starting at byte offset `off`. -/
def chunkWord (bytes : List Nat) (off j : Nat) : Nat :=
  bytes.getD (off + 4 * j) 0 + 256 * bytes.getD (off + 4 * j + 1) 0 +
    65536 * bytes.getD (off + 4 * j + 2) 0 + 16777216 * bytes.getD (off + 4 * j + 3) 0

/-- The four little-endian bytes of a 32-bit word. -/
def toLEBytes4 (w : Nat) : List Nat :=
  [w % 256, w / 256 % 256, w / 65536 % 256, w / 16777216 % 256]

/-- The eight little-endian bytes of a 64-bit word. -/
def toLEBytes8 (w : Nat) : List Nat :=
  toLEBytes4 (w % 4294967296) ++ toLEBytes4 (w / 4294967296 % 4294967296)

/-- MD5 padding: `0x80`, zeros to 56 mod 64, then the 64-bit bit length. -/
def md5Pad (msg : List Nat) : List Nat :=
  let padZeros := (64 + 56 - (msg.length + 1) % 64) % 64
  msg ++ [0x80] ++ List.replicate padZeros 0 ++ toLEBytes8 (8 * msg.length)

def md5Init : MD5State :=
  { a := 0x67452301, b := 0xefcdab89, c := 0x98badcfe, d := 0x10325476 }

/-- The 16-byte MD5 digest of a byte sequence. -/
def md5Bytes (msg : List Nat) : List Nat :=
  let padded := md5Pad msg
  let final := (List.range (padded.length / 64)).foldl
    (fun st k => md5ProcessChunk st (chunkWord padded (64 * k))) md5Init
  toLEBytes4 final.a ++ toLEBytes4 final.b ++ toLEBytes4 final.c ++ toLEBytes4 final.d

def toNibble (n : Nat) : Fin 16 := ⟨n % 16, Nat.mod_lt _ (by norm_num)⟩

/-- The two hex nibbles of a byte, high first. -/
def byteNibbles (b : Nat) : List (Fin 16) := [toNibble (b / 16), toNibble b]

/-- Lowercase hex digit for a nibble. -/
def hexChar (i : Fin 16) : Char := "0123456789abcdef".data.getD i.val '0'

/-- The 32 hex nibbles of `hashlib.md5(s.encode()).digest()`. -/
def md5Nibbles (s : String) : List (Fin 16) :=
  (md5Bytes (s.toUTF8.toList.map UInt8.toNat)).flatMap byteNibbles

/-- `hashlib.md5(s.encode()).hexdigest()`. -/
def md5_hexdigest (s : String) : String := String.mk ((md5Nibbles s).map hexChar)

/-- `get_url_hash` (worker.py:200-202): 生成 URL 的哈希值作为文件名.
`hashlib.md5(url.encode()).hexdigest()[:16]`. -/
def get_url_hash (url : String) : String := String.mk ((md5_hexdigest url).data.take 16)

/-- `get_cache_key` (worker.py:439-442): `f"{url_hash}:{cache_type}"`. -/
def get_cache_key (video_url cache_type : String) : String :=
  get_url_hash video_url ++ ":" ++ cache_type

/-- The string of `n` copies of `'a'`: an infinite family of distinct URLs. -/
def aString (n : Nat) : String := String.mk (List.replicate n 'a')

/-- The first 16 nibbles of a URL's MD5 digest, read off as a function on
`Fin 16`: the finite codomain through which `get_url_hash` factors. -/
def nibblePre16 (s : String) : Fin 16 → Fin 16 :=
  fun i => ((md5Nibbles s).take 16).getD i.val 0

/-! ### `database.py` — records and store operations

Each SQLAlchemy table is embedded as a list of records; `id` columns are
`Nat`, nullable columns are `Option`.  A keyword-argument update is a
record of `Option` fields, `none` meaning "keyword absent". -/

/-- The four-state status machine shared by both job tables. -/
inductive Status
  | pending
  | processing
  | completed
  | failed
deriving DecidableEq

/-- A `vocal_removal_tasks` row (database.py:153-163). -/
structure VocalRemovalTask where
  id : Nat
  video_url : String
  status : Status
  output_video_path : Option String
  error_message : Option String
deriving DecidableEq

abbrev VRStore := List VocalRemovalTask

/-- A `media_cache` row (database.py:166-175). -/
structure MediaCacheEntry where
  cache_key : String
  cache_type : String
  file_path : String
  source_url : String
deriving DecidableEq

abbrev CacheStore := List MediaCacheEntry

/-- A `user_dubbings` row (database.py:178-197).  The worker reads `mode`
and `user_video_path` through `getattr(task, ..., None)` (worker.py:679,
789), so they are embedded as `Option` fields; display metadata columns
not consulted by the pipeline are omitted. -/
structure UserDubbing where
  id : Nat
  user_id : String
  clip_path : String
  original_video_url : String
  user_audio_path : Option String
  composite_video_path : Option String
  status : Status
  error_message : Option String
  is_public : Bool
  mode : Option String
  user_video_path : Option String
deriving DecidableEq

abbrev DubStore := List UserDubbing

/-- `get_vocal_removal_task` (database.py:441-443). -/
def get_vocal_removal_task (db : VRStore) (video_url : String) : Option VocalRemovalTask :=
  db.find? (fun t => t.video_url == video_url)

/-- `create_vocal_removal_task` (database.py:446-452); `fresh_id` models the
autoincrement primary key. -/
def create_vocal_removal_task (db : VRStore) (video_url : String) (fresh_id : Nat) :
    VocalRemovalTask × VRStore :=
  let task : VocalRemovalTask :=
    { id := fresh_id, video_url := video_url, status := .pending,
      output_video_path := none, error_message := none }
  (task, db ++ [task])

/-- The keyword arguments `update_vocal_removal_task` is called with. -/
structure VRUpdate where
  status : Option Status := none
  output_video_path : Option String := none
  error_message : Option String := none

/-- `setattr(task, key, value)` for each present keyword. -/
def applyVRUpdate (t : VocalRemovalTask) (u : VRUpdate) : VocalRemovalTask :=
  { t with
    status := match u.status with | some v => v | none => t.status
    output_video_path := match u.output_video_path with
      | some v => some v | none => t.output_video_path
    error_message := match u.error_message with
      | some v => some v | none => t.error_message }

/-- `update_vocal_removal_task` (database.py:455-464): update the row with
the given (unique) id. -/
def update_vocal_removal_task (db : VRStore) (task_id : Nat) (u : VRUpdate) : VRStore :=
  db.map (fun t => if t.id = task_id then applyVRUpdate t u else t)

/-- `get_pending_vocal_removal_tasks` (database.py:467-469). -/
def get_pending_vocal_removal_tasks (db : VRStore) : List VocalRemovalTask :=
  db.filter (fun t => t.status == .pending)

/-- `delete_vocal_removal_task` (database.py:472-476). -/
def delete_vocal_removal_task (db : VRStore) (video_url : String) : VRStore :=
  db.filter (fun t => !(t.video_url == video_url))

/-- `cleanup_failed_vocal_removal_tasks` (database.py:479-483): bulk-delete
all `failed` rows (the worker-startup purge). -/
def cleanup_failed_vocal_removal_tasks (db : VRStore) : VRStore :=
  db.filter (fun t => !(t.status == Status.failed))

/-- `get_media_cache` (database.py:487-489). -/
def get_media_cache (db : CacheStore) (cache_key : String) : Option MediaCacheEntry :=
  db.find? (fun c => c.cache_key == cache_key)

/-- `create_media_cache` (database.py:492-503). -/
def create_media_cache (db : CacheStore) (cache_key cache_type file_path source_url : String) :
    CacheStore :=
  db ++ [{ cache_key := cache_key, cache_type := cache_type,
           file_path := file_path, source_url := source_url }]

/-- `get_user_dubbing_by_id` (database.py:524-526). -/
def get_user_dubbing_by_id (db : DubStore) (dubbing_id : Nat) : Option UserDubbing :=
  db.find? (fun d => d.id == dubbing_id)

/-- The keyword arguments `update_user_dubbing` is called with. -/
structure DubUpdate where
  status : Option Status := none
  composite_video_path : Option String := none
  error_message : Option String := none
  is_public : Option Bool := none

def applyDubUpdate (d : UserDubbing) (u : DubUpdate) : UserDubbing :=
  { d with
    status := match u.status with | some v => v | none => d.status
    composite_video_path := match u.composite_video_path with
      | some v => some v | none => d.composite_video_path
    error_message := match u.error_message with
      | some v => some v | none => d.error_message
    is_public := match u.is_public with | some v => v | none => d.is_public }

/-- `update_user_dubbing` (database.py:529-538). -/
def update_user_dubbing (db : DubStore) (dubbing_id : Nat) (u : DubUpdate) : DubStore :=
  db.map (fun d => if d.id = dubbing_id then applyDubUpdate d u else d)

/-- `get_pending_user_dubbings` (database.py:541-543). -/
def get_pending_user_dubbings (db : DubStore) : List UserDubbing :=
  db.filter (fun d => d.status == .pending)

/-- `delete_user_dubbing` (database.py:574-581): delete by id, requiring a
matching user id. -/
def delete_user_dubbing (db : DubStore) (dubbing_id : Nat) (user_id : String) : DubStore :=
  db.filter (fun d => !(d.id == dubbing_id && d.user_id == user_id))

/-- `cleanup_failed_user_dubbings` (database.py:584-588). -/
def cleanup_failed_user_dubbings (db : DubStore) : DubStore :=
  db.filter (fun d => !(d.status == Status.failed))

/-! ### `app_routes.py` — the enqueuing interfaces -/

/-- The `VocalRemovalResponse` body (app_routes.py:480-485). -/
structure VocalRemovalResponse where
  status : Status
  video_url : String
  output_video_path : Option String
  error_message : Option String
deriving DecidableEq

/-- `request_vocal_removal` (app_routes.py:488-532): look up the record for
the URL; a live record is returned as-is, a `failed` record is deleted and
a fresh `pending` record created, and an unknown URL gets a fresh
`pending` record. -/
def request_vocal_removal (db : VRStore) (video_url : String) (fresh_id : Nat) :
    VocalRemovalResponse × VRStore :=
  match get_vocal_removal_task db video_url with
  | some existing_task =>
    if existing_task.status = .failed then
      let db1 := delete_vocal_removal_task db video_url
      let created := create_vocal_removal_task db1 video_url fresh_id
      ({ status := created.1.status, video_url := created.1.video_url,
         output_video_path := none, error_message := none }, created.2)
    else
      ({ status := existing_task.status, video_url := existing_task.video_url,
         output_video_path := existing_task.output_video_path,
         error_message := existing_task.error_message }, db)
  | none =>
    let created := create_vocal_removal_task db video_url fresh_id
    ({ status := created.1.status, video_url := created.1.video_url,
       output_video_path := none, error_message := none }, created.2)

/-- `create_composite_video` (app_routes.py:596-653): always creates a fresh
`pending` record (never deduplicated). -/
def create_composite_video (db : DubStore) (fresh_id : Nat)
    (user_id clip_path video_url audio_filename : String) : UserDubbing × DubStore :=
  let dubbing : UserDubbing :=
    { id := fresh_id, user_id := user_id, clip_path := clip_path,
      original_video_url := video_url,
      user_audio_path := some ("/user_audio/" ++ audio_filename),
      composite_video_path := none, status := .pending, error_message := none,
      is_public := true, mode := none, user_video_path := none }
  (dubbing, db ++ [dubbing])

/-! ### `worker.py` — path helpers and configuration

The filesystem is embedded as the list of currently existing paths.
`os.path.dirname(__file__)` is the fixed directory `server_dir`. -/

def server_dir : String := "server"

def VOCAL_REMOVAL_OUTPUT_DIR : String := server_dir ++ "/vocal_removed"

def BACKGROUND_CACHE_DIR : String := server_dir ++ "/media_cache/background"

def MUTE_VIDEO_CACHE_DIR : String := server_dir ++ "/media_cache/mute_video"

def USER_DUBBINGS_DIR : String := server_dir ++ "/user_dubbings"

/-- `pathlib.Path(p).suffix`: the extension of the final component,
nonempty only when the last `'.'` is neither the first nor the last
character of the name. -/
def pathSuffix (p : String) : String :=
  let name := ((p.splitOn "/").getLastD "").data
  match (name.reverse.findIdx? (· == '.')) with
  | none => ""
  | some r =>
    let i := name.length - 1 - r
    if 0 < i ∧ i < name.length - 1 then String.mk (name.drop i) else ""

/-- `Path(url).suffix or '.mp4'` (an empty suffix is falsy). -/
def extOf (url : String) : String :=
  let s := pathSuffix url
  if s = "" then ".mp4" else s

/-- `s.lstrip('/')`. -/
def lstripSlash (s : String) : String := String.mk (s.data.dropWhile (· == '/'))

/-- `os.path.join(a, b)` for a relative `b`. -/
def osJoin (a b : String) : String := a ++ "/" ++ b

/-- Whether path `p` lies strictly under directory `dir`. -/
def isUnder (dir p : String) : Bool :=
  p.data.take (dir.data.length + 1) == dir.data ++ ['/']

/-- `shutil.rmtree(dir)`: remove the directory and everything under it. -/
def rmtreeFs (fs : List String) (dir : String) : List String :=
  fs.filter (fun p => !(p == dir) && !(isUnder dir p))

/-! ### `worker.py` — tool adapters and the Demucs output search

Each external tool is driven by an environment value recording whether it
succeeds and, for Demucs, its exit code and which model-named output
directories it wrote. -/

/-- The known Demucs model directory names searched by the executor
(worker.py:265): 尝试多个可能的模型名称. -/
def possible_models : List String := ["htdemucs", "htdemucs_ft", "mdx_extra", "demucs"]

/-- `os.path.join(output_dir, model, audio_basename, 'no_vocals.wav')`. -/
def demucsCandidate (output_dir model audio_basename : String) : String :=
  output_dir ++ "/" ++ model ++ "/" ++ audio_basename ++ "/no_vocals.wav"

/-- `remove_vocals_with_demucs` (worker.py:241-287), given the tool's exit
code and the filesystem after the tool ran: a non-zero exit yields `None`;
otherwise the first existing candidate among the known model-directory
conventions is returned, and `None` if none exists. -/
def remove_vocals_with_demucs (returncode : Nat) (fs : List String)
    (audio_basename output_dir : String) : Option String :=
  if returncode ≠ 0 then none
  else (possible_models.map (fun m => demucsCandidate output_dir m audio_basename)).find?
    (fun p => fs.contains p)

/-- Outcome of one run of an external-tool environment for the
vocal-removal pipeline (download → extract → demucs → merge). -/
structure VRPipelineEnv where
  download_ok : Bool
  extract_ok : Bool
  demucs_returncode : Nat
  demucs_models_written : List String
  merge_ok : Bool
deriving DecidableEq

/-- The result dict returned by an executor
(`{"success": True, "output_path": p}` / `{"success": False, "error": e}`). -/
inductive TaskResult
  | success (output_path : String)
  | failure (error : String)
deriving DecidableEq

/-- The step sequence of `process_vocal_removal_task` (worker.py:336-378)
inside its try-block, threading the filesystem: each failing step raises,
and the raised message is the value of the outer `except`.  Returns the
filesystem as of the raise/return together with the outcome. -/
def vr_pipeline_body (env : VRPipelineEnv) (fs : List String)
    (video_url work_dir : String) : List String × Except String String :=
  let video_ext := extOf video_url
  let downloaded_video := work_dir ++ "/original" ++ video_ext
  if !env.download_ok then (fs, .error "下载视频失败")
  else
    let fs := downloaded_video :: fs
    let audio_path := work_dir ++ "/audio.mp3"
    if !env.extract_ok then (fs, .error "提取音频失败")
    else
      let fs := audio_path :: fs
      let demucs_output_dir := work_dir ++ "/demucs_output"
      let fs := demucs_output_dir :: fs
      let fs := fs ++ env.demucs_models_written.map
        (fun m => demucsCandidate demucs_output_dir m "audio")
      match remove_vocals_with_demucs env.demucs_returncode fs "audio" demucs_output_dir with
      | none => (fs, .error "人声分离失败")
      | some _ =>
        let url_hash := get_url_hash video_url
        let output_filename := url_hash ++ "_no_vocals" ++ video_ext
        let output_video_path := VOCAL_REMOVAL_OUTPUT_DIR ++ "/" ++ output_filename
        if !env.merge_ok then (fs, .error "合成视频失败")
        else
          (output_video_path :: fs, .ok ("/vocal_removed/" ++ output_filename))

/-- Result of one executor run over the whole state. -/
structure VRRun where
  db : VRStore
  fs : List String
  result : TaskResult
deriving DecidableEq

/-- `process_vocal_removal_task` (worker.py:315-393): mark the record
`processing`, make the private working directory, run the step sequence,
record the terminal status, and remove the working directory on every
exit path (the inner `finally`; on failure the removal runs before the
outer `except` writes `failed`). -/
def process_vocal_removal_task (db : VRStore) (fs : List String)
    (task : VocalRemovalTask) (env : VRPipelineEnv) (work_dir : String) : VRRun :=
  let db := update_vocal_removal_task db task.id { status := some .processing }
  let fs := work_dir :: fs
  match vr_pipeline_body env fs task.video_url work_dir with
  | (fs, .ok relative_path) =>
    let db := update_vocal_removal_task db task.id
      { status := some .completed, output_video_path := some relative_path }
    let fs := rmtreeFs fs work_dir
    { db := db, fs := fs, result := .success relative_path }
  | (fs, .error e) =>
    let fs := rmtreeFs fs work_dir
    let db := update_vocal_removal_task db task.id
      { status := some .failed, error_message := some e }
    { db := db, fs := fs, result := .failure e }

/-! ### `worker.py` — composite-dubbing pipeline -/

/-- External-tool environment for one composite-dubbing run. -/
structure CompositeEnv where
  download_ok : Bool
  extract_ok : Bool
  demucs_returncode : Nat
  demucs_models_written : List String
  mute_ok : Bool
  merge_audio_ok : Bool
  merge_video_ok : Bool
  stack_ok : Bool
deriving DecidableEq

/-- Result of `get_or_create_background_and_mute_video`. -/
structure GocRun where
  cache : CacheStore
  fs : List String
  result : Option (String × String)
deriving DecidableEq

/-- The cache lookup performed at worker.py:576-589: both records must
exist and both files must still exist on disk, otherwise the lookup is a
miss. -/
def goc_cache_hit (cache : CacheStore) (fs : List String) (video_url : String) :
    Option (String × String) :=
  let url_hash := get_url_hash video_url
  match get_media_cache cache (url_hash ++ ":background"),
      get_media_cache cache (url_hash ++ ":mute-video") with
  | some bg_cache, some mute_cache =>
    let bg_path := osJoin server_dir (lstripSlash bg_cache.file_path)
    let mute_path := osJoin server_dir (lstripSlash mute_cache.file_path)
    if fs.contains bg_path && fs.contains mute_path then some (bg_path, mute_path)
    else none
  | _, _ => none

/-- The cache-miss branch of `get_or_create_background_and_mute_video`
(worker.py:591-652): download → extract → separate → store background →
mute video → store records, with the working directory removed on every
exit path and any raise turned into `(None, None)`. -/
def goc_create (cache : CacheStore) (fs : List String) (video_url : String)
    (env : CompositeEnv) (work_dir : String) : GocRun :=
  let url_hash := get_url_hash video_url
  let bg_cache_key := url_hash ++ ":background"
  let mute_cache_key := url_hash ++ ":mute-video"
  let bg_recorded := (get_media_cache cache bg_cache_key).isSome
  let mute_recorded := (get_media_cache cache mute_cache_key).isSome
  let video_ext := extOf video_url
  let fs := work_dir :: fs
  let downloaded_video := work_dir ++ "/original" ++ video_ext
  if !env.download_ok then { cache := cache, fs := rmtreeFs fs work_dir, result := none }
  else
    let fs := downloaded_video :: fs
    let audio_path := work_dir ++ "/audio.mp3"
    if !env.extract_ok then { cache := cache, fs := rmtreeFs fs work_dir, result := none }
    else
      let fs := audio_path :: fs
      let demucs_output_dir := work_dir ++ "/demucs_output"
      let fs := demucs_output_dir :: fs
      let fs := fs ++ env.demucs_models_written.map
        (fun m => demucsCandidate demucs_output_dir m "audio")
      match remove_vocals_with_demucs env.demucs_returncode fs "audio" demucs_output_dir with
      | none => { cache := cache, fs := rmtreeFs fs work_dir, result := none }
      | some _ =>
        let bg_filename := url_hash ++ "_background.wav"
        let bg_output_path := BACKGROUND_CACHE_DIR ++ "/" ++ bg_filename
        let fs := bg_output_path :: fs
        let cache :=
          if bg_recorded then cache
          else create_media_cache cache bg_cache_key "background"
            ("/media_cache/background/" ++ bg_filename) video_url
        let mute_filename := url_hash ++ "_mute" ++ video_ext
        let mute_output_path := MUTE_VIDEO_CACHE_DIR ++ "/" ++ mute_filename
        if !env.mute_ok then { cache := cache, fs := rmtreeFs fs work_dir, result := none }
        else
          let fs := mute_output_path :: fs
          let cache :=
            if mute_recorded then cache
            else create_media_cache cache mute_cache_key "mute-video"
              ("/media_cache/mute_video/" ++ mute_filename) video_url
          { cache := cache, fs := rmtreeFs fs work_dir,
            result := some (bg_output_path, mute_output_path) }

/-- `get_or_create_background_and_mute_video` (worker.py:566-658). -/
def get_or_create_background_and_mute_video (cache : CacheStore) (fs : List String)
    (video_url : String) (env : CompositeEnv) (work_dir : String) : GocRun :=
  match goc_cache_hit cache fs video_url with
  | some paths => { cache := cache, fs := fs, result := some paths }
  | none => goc_create cache fs video_url env work_dir

/-- `mode = getattr(task, 'mode', None) or 'audio'` (worker.py:679). -/
def taskMode (task : UserDubbing) : String :=
  match task.mode with
  | some m => if m == "" then "audio" else m
  | none => "audio"

/-- The arguments `process_video_dubbing_task` passed to
`stack_videos_vertical`. -/
structure StackInvocation where
  top : String
  bottom : String
  output : String
  width : Nat
deriving DecidableEq

deriving instance DecidableEq for Except

/-- Result of the step sequence of one composite-dubbing mode. -/
structure DubBodyRun where
  cache : CacheStore
  fs : List String
  stack : Option StackInvocation
  outcome : Except String String
deriving DecidableEq

/-- `process_audio_dubbing_task` (worker.py:725-759). -/
def process_audio_dubbing_task (cache : CacheStore) (fs : List String)
    (task : UserDubbing) (env : CompositeEnv) (work_dir goc_work_dir : String) : DubBodyRun :=
  let goc := get_or_create_background_and_mute_video cache fs
    task.original_video_url env goc_work_dir
  match goc.result with
  | none => { cache := goc.cache, fs := goc.fs, stack := none,
              outcome := .error "获取背景音或无声视频失败" }
  | some _paths =>
    match task.user_audio_path with
    | none =>
      -- `task.user_audio_path.lstrip('/')` on a NULL column raises an
      -- AttributeError, which the executor's catch-all stringifies.
      { cache := goc.cache, fs := goc.fs, stack := none,
        outcome := .error "'NoneType' object has no attribute 'lstrip'" }
    | some uap =>
      let user_audio_path := osJoin server_dir (lstripSlash uap)
      if !(goc.fs.contains user_audio_path) then
        { cache := goc.cache, fs := goc.fs, stack := none,
          outcome := .error ("用户录音文件不存在: " ++ user_audio_path) }
      else
        let merged_audio_path := work_dir ++ "/merged_audio.aac"
        if !env.merge_audio_ok then
          { cache := goc.cache, fs := goc.fs, stack := none, outcome := .error "合并音频失败" }
        else
          let fs := merged_audio_path :: goc.fs
          let video_ext := extOf task.original_video_url
          let output_filename :=
            task.user_id ++ "_" ++ toString task.id ++ "_composite" ++ video_ext
          let output_video_path := USER_DUBBINGS_DIR ++ "/" ++ output_filename
          if !env.merge_video_ok then
            { cache := goc.cache, fs := fs, stack := none, outcome := .error "合成最终视频失败" }
          else
            { cache := goc.cache, fs := output_video_path :: fs, stack := none,
              outcome := .ok ("/user_dubbings/" ++ output_filename) }

/-- `process_video_dubbing_task` (worker.py:762-804): pick the cached muted
source video if it exists (else download the source), then stack the
source on top of the user's video. -/
def process_video_dubbing_task (cache : CacheStore) (fs : List String)
    (task : UserDubbing) (env : CompositeEnv) (work_dir : String) : DubBodyRun :=
  let url_hash := get_url_hash task.original_video_url
  let video_ext := extOf task.original_video_url
  let cached_mute_path := MUTE_VIDEO_CACHE_DIR ++ "/" ++ url_hash ++ "_mute" ++ video_ext
  let source : Except String (List String × String) :=
    if fs.contains cached_mute_path then .ok (fs, cached_mute_path)
    else
      let original_video_path := work_dir ++ "/original" ++ video_ext
      if !env.download_ok then .error "下载原视频失败"
      else .ok (original_video_path :: fs, original_video_path)
  match source with
  | .error e => { cache := cache, fs := fs, stack := none, outcome := .error e }
  | .ok (fs, original_video_path) =>
    let falsyUserVideo := match task.user_video_path with
      | none => true
      | some v => v == ""
    if falsyUserVideo then
      { cache := cache, fs := fs, stack := none, outcome := .error "视频配音模式需要用户视频" }
    else
      let uvp := match task.user_video_path with | some v => v | none => ""
      let user_video_path := osJoin server_dir (lstripSlash uvp)
      if !(fs.contains user_video_path) then
        { cache := cache, fs := fs, stack := none,
          outcome := .error ("用户视频文件不存在: " ++ user_video_path) }
      else
        let output_filename := task.user_id ++ "_" ++ toString task.id ++ "_video_dubbing.mp4"
        let output_video_path := USER_DUBBINGS_DIR ++ "/" ++ output_filename
        let inv : StackInvocation :=
          { top := original_video_path, bottom := user_video_path,
            output := output_video_path, width := 720 }
        if !env.stack_ok then
          { cache := cache, fs := fs, stack := some inv, outcome := .error "视频拼接失败" }
        else
          { cache := cache, fs := output_video_path :: fs, stack := some inv,
            outcome := .ok ("/user_dubbings/" ++ output_filename) }

/-- The mode dispatch inside `process_composite_video_task`
(worker.py:692-697). -/
def composite_pipeline_body (cache : CacheStore) (fs : List String)
    (task : UserDubbing) (env : CompositeEnv) (work_dir goc_work_dir : String) : DubBodyRun :=
  if taskMode task == "video" then process_video_dubbing_task cache fs task env work_dir
  else process_audio_dubbing_task cache fs task env work_dir goc_work_dir

/-- Result of one composite-dubbing executor run over the whole state. -/
structure CompositeRun where
  dubs : DubStore
  cache : CacheStore
  fs : List String
  stack : Option StackInvocation
  result : TaskResult
deriving DecidableEq

/-- `process_composite_video_task` (worker.py:661-722): mark `processing`,
run the selected mode's step sequence, record the terminal status, and
remove the working directory on every exit path. -/
def process_composite_video_task (dubs : DubStore) (cache : CacheStore) (fs : List String)
    (task : UserDubbing) (env : CompositeEnv) (work_dir goc_work_dir : String) : CompositeRun :=
  let dubs := update_user_dubbing dubs task.id { status := some .processing }
  let fs := work_dir :: fs
  let body := composite_pipeline_body cache fs task env work_dir goc_work_dir
  match body.outcome with
  | .ok output_path =>
    let dubs := update_user_dubbing dubs task.id
      { status := some .completed, composite_video_path := some output_path }
    let fs := rmtreeFs body.fs work_dir
    { dubs := dubs, cache := body.cache, fs := fs, stack := body.stack,
      result := .success output_path }
  | .error e =>
    let fs := rmtreeFs body.fs work_dir
    let dubs := update_user_dubbing dubs task.id
      { status := some .failed, error_message := some e }
    { dubs := dubs, cache := body.cache, fs := fs, stack := body.stack,
      result := .failure e }

/-- The terminal write a vocal-removal executor run performs, as a function
of the step-sequence outcome. -/
def vrTerminalUpdate (r : Except String String) : VRUpdate :=
  match r with
  | .ok p => { status := some .completed, output_video_path := some p }
  | .error e => { status := some .failed, error_message := some e }

/-- The terminal write a composite-dubbing executor run performs. -/
def dubTerminalUpdate (r : Except String String) : DubUpdate :=
  match r with
  | .ok p => { status := some .completed, composite_video_path := some p }
  | .error e => { status := some .failed, error_message := some e }

/-! ### `stack_videos_vertical` — the ffmpeg invocation and its filter graph

`stack_videos_vertical` (worker.py:489-545) only builds an ffmpeg argument
list; its `-filter_complex` value is given meaning by a small filter-graph
language: streams are frames, `scale=w:h:force_original_aspect_ratio=0`
stretches a frame to exactly `w`×`h` ignoring its source aspect ratio, and
`vstack=inputs=2` stacks two frames vertically. -/

/-- A video stream produced by the filter graph. -/
inductive VFrame
  | input (i : Nat)
  | scaleExact (src : VFrame) (w h : Nat)
  | vstacked (top bottom : VFrame)
deriving DecidableEq

inductive StreamRef
  | inputVideo (i : Nat)
  | label (l : String)
deriving DecidableEq

inductive FilterOp
  | scale (w h : Nat)
  | vstack2
deriving DecidableEq

structure FilterChain where
  ins : List StreamRef
  op : FilterOp
  out : String
deriving DecidableEq

def renderRef : StreamRef → String
  | .inputVideo i => "[" ++ toString i ++ ":v]"
  | .label l => "[" ++ l ++ "]"

def renderOp : FilterOp → String
  | .scale w h => "scale=" ++ toString w ++ ":" ++ toString h ++ ":force_original_aspect_ratio=0"
  | .vstack2 => "vstack=inputs=2"

def renderChain (c : FilterChain) : String :=
  String.join (c.ins.map renderRef) ++ renderOp c.op ++ "[" ++ c.out ++ "]"

def renderGraph (cs : List FilterChain) : String :=
  String.intercalate ";" (cs.map renderChain)

/-- The filter graph of `stack_videos_vertical`: stretch input 0 and
input 1 to squares, stack input 0 on top. -/
def stackFilterGraph (square_size : Nat) : List FilterChain :=
  [{ ins := [.inputVideo 0], op := .scale square_size square_size, out := "top" },
   { ins := [.inputVideo 1], op := .scale square_size square_size, out := "bottom" },
   { ins := [.label "top", .label "bottom"], op := .vstack2, out := "v" }]

/-- The `-filter_complex` value built at worker.py:520-522, verbatim. -/
def stack_filter_complex (square_size : Nat) : String :=
  "[0:v]scale=" ++ toString square_size ++ ":" ++ toString square_size ++
    ":force_original_aspect_ratio=0[top];" ++
  "[1:v]scale=" ++ toString square_size ++ ":" ++ toString square_size ++
    ":force_original_aspect_ratio=0[bottom];" ++
  "[top][bottom]vstack=inputs=2[v]"

/-- The full ffmpeg argument list built by `stack_videos_vertical`
(worker.py:514-531). -/
def stack_videos_vertical_cmd (top_video bottom_video output_path : String)
    (output_width : Nat) : List String :=
  let square_size := output_width
  ["ffmpeg", "-y",
   "-i", top_video,
   "-i", bottom_video,
   "-filter_complex", stack_filter_complex square_size,
   "-map", "[v]",
   "-map", "1:a?",
   "-c:v", "libx264",
   "-preset", "fast",
   "-crf", "23",
   "-c:a", "aac",
   "-shortest",
   output_path]

def evalRef (env : List (String × VFrame)) : StreamRef → Option VFrame
  | .inputVideo i => some (.input i)
  | .label l => (env.find? (fun p => p.1 == l)).map (·.2)

def applyFilterOp : FilterOp → List VFrame → Option VFrame
  | .scale w h, [f] => some (.scaleExact f w h)
  | .vstack2, [t, b] => some (.vstacked t b)
  | _, _ => none

def evalChains (env : List (String × VFrame)) : List FilterChain →
    Option (List (String × VFrame))
  | [] => some env
  | c :: rest =>
    match c.ins.mapM (evalRef env) with
    | none => none
    | some ins =>
      match applyFilterOp c.op ins with
      | none => none
      | some f => evalChains ((c.out, f) :: env) rest

/-- The stream a `-map "[l]"` argument selects from the filter graph. -/
def evalGraphLabel (cs : List FilterChain) (l : String) : Option VFrame :=
  match evalChains [] cs with
  | none => none
  | some env => (env.find? (fun p => p.1 == l)).map (·.2)

/-- Pixel dimensions of a produced frame, given each input's dimensions:
an exact scale ignores the source dimensions; a vertical stack adds
heights. -/
def frameDims (inDims : Nat → Nat × Nat) : VFrame → Nat × Nat
  | .input i => inDims i
  | .scaleExact _ w h => (w, h)
  | .vstacked t b => ((frameDims inDims t).1, (frameDims inDims t).2 + (frameDims inDims b).2)

/-- Split a character list on `':'`. -/
def splitColon (cs : List Char) : List (List Char) :=
  cs.foldr
    (fun c acc =>
      if c == ':' then [] :: acc
      else (c :: acc.headD []) :: acc.tail)
    [[]]

/-- Parse a nonempty all-digit character list as a number. -/
def natOfDigits (cs : List Char) : Option Nat :=
  if cs.isEmpty then none
  else if cs.all (fun c => c.isDigit) then
    some (cs.foldl (fun n c => n * 10 + (c.toNat - 48)) 0)
  else none

/-- Which input's audio a `-map "i:a?"` argument selects. -/
def audioInputOfMap (m : String) : Option Nat :=
  match splitColon m.data with
  | [n, a] => if a == ['a', '?'] then natOfDigits n else none
  | _ => none

/-! ### The system's operations as a transition relation

The operations the HTTP layer and the worker loops perform on the shared
stores, as a step relation on the whole state; freshness of autoincrement
ids is a hypothesis of the creating steps, and the worker only processes
tasks it found `pending` (`get_pending_*`). -/

structure SysState where
  vr : VRStore
  dubs : DubStore
  cache : CacheStore
  fs : List String

inductive Step : SysState → SysState → Prop
  | requestVocalRemoval (s : SysState) (url : String) (fid : Nat)
      (hfresh : ∀ t ∈ s.vr, t.id ≠ fid) :
      Step s { s with vr := (request_vocal_removal s.vr url fid).2 }
  | vocalWorkerStartup (s : SysState) :
      Step s { s with vr := cleanup_failed_vocal_removal_tasks s.vr }
  | processVocalRemoval (s : SysState) (task : VocalRemovalTask) (env : VRPipelineEnv)
      (work_dir : String) (hmem : task ∈ s.vr) (hp : task.status = .pending) :
      Step s { s with
        vr := (process_vocal_removal_task s.vr s.fs task env work_dir).db,
        fs := (process_vocal_removal_task s.vr s.fs task env work_dir).fs }
  | createComposite (s : SysState) (fid : Nat)
      (user_id clip_path video_url audio_filename : String)
      (hfresh : ∀ d ∈ s.dubs, d.id ≠ fid) :
      Step s { s with
        dubs := (create_composite_video s.dubs fid user_id clip_path
          video_url audio_filename).2 }
  | compositeWorkerStartup (s : SysState) :
      Step s { s with dubs := cleanup_failed_user_dubbings s.dubs }
  | processComposite (s : SysState) (task : UserDubbing) (env : CompositeEnv)
      (work_dir goc_work_dir : String) (hmem : task ∈ s.dubs)
      (hp : task.status = .pending) :
      Step s { s with
        dubs := (process_composite_video_task s.dubs s.cache s.fs task env
          work_dir goc_work_dir).dubs,
        cache := (process_composite_video_task s.dubs s.cache s.fs task env
          work_dir goc_work_dir).cache,
        fs := (process_composite_video_task s.dubs s.cache s.fs task env
          work_dir goc_work_dir).fs }
  | setPublicFlag (s : SysState) (dubbing_id : Nat) (b : Bool) :
      Step s { s with dubs := update_user_dubbing s.dubs dubbing_id { is_public := some b } }
  | deleteDubbing (s : SysState) (dubbing_id : Nat) (user_id : String) :
      Step s { s with dubs := delete_user_dubbing s.dubs dubbing_id user_id }

/-- States reachable from an empty deployment (fresh stores, any disk). -/
inductive Reachable : SysState → Prop
  | init (fs : List String) : Reachable { vr := [], dubs := [], cache := [], fs := fs }
  | step {s s' : SysState} : Reachable s → Step s s' → Reachable s'

/-- Field/status consistency of one vocal-removal record. -/
def vrStateInv (t : VocalRemovalTask) : Prop :=
  match t.status with
  | .pending => t.output_video_path = none ∧ t.error_message = none
  | .processing => t.output_video_path = none ∧ t.error_message = none
  | .completed => t.output_video_path.isSome ∧ t.error_message = none
  | .failed => t.output_video_path = none ∧ t.error_message.isSome

/-- Field/status consistency of one composite-dubbing record. -/
def dubStateInv (d : UserDubbing) : Prop :=
  match d.status with
  | .pending => d.composite_video_path = none ∧ d.error_message = none
  | .processing => d.composite_video_path = none ∧ d.error_message = none
  | .completed => d.composite_video_path.isSome ∧ d.error_message = none
  | .failed => d.composite_video_path = none ∧ d.error_message.isSome

/-- System invariant: distinct primary keys, and field/status consistency
of every record. -/
def SysInv (s : SysState) : Prop :=
  (s.vr.map (·.id)).Nodup ∧ (s.dubs.map (·.id)).Nodup ∧
    (∀ t ∈ s.vr, vrStateInv t) ∧ (∀ d ∈ s.dubs, dubStateInv d)

/-- A terminal status (no transition leaves it). -/
def Status.terminal : Status → Prop
  | .completed => True
  | .failed => True
  | _ => False

/-! ### Concrete stores, tasks and environments used by the witness runs -/

/-- A store holding one `processing` record, for concrete evaluation. -/
def c1_store : VRStore :=
  [{ id := 1, video_url := "http://cdn/a.mp4", status := .processing,
     output_video_path := none, error_message := none }]

/-- A store holding one `failed` record for URL `"u"`. -/
def c2_store : VRStore :=
  [{ id := 1, video_url := "u", status := .failed,
     output_video_path := none, error_message := some "boom" }]

/-- Environment in which the very first step (the download) fails. -/
def c4_env : VRPipelineEnv :=
  { download_ok := false, extract_ok := false, demucs_returncode := 1,
    demucs_models_written := [], merge_ok := false }

/-- Composite environment in which the download fails. -/
def c4_cenv : CompositeEnv :=
  { download_ok := false, extract_ok := false, demucs_returncode := 1,
    demucs_models_written := [], mute_ok := false, merge_audio_ok := false,
    merge_video_ok := false, stack_ok := false }

/-- A composite-dubbing record in audio mode (no `mode` attribute). -/
def c4_dub : UserDubbing :=
  { id := 5, user_id := "u9", clip_path := "c/1.mp4",
    original_video_url := "http://cdn/v.mp4",
    user_audio_path := some "/user_audio/a.m4a", composite_video_path := none,
    status := .pending, error_message := none, is_public := true,
    mode := none, user_video_path := none }

/-- The single record of `c1_store`, named for the C4 witness run. -/
def c4_task : VocalRemovalTask :=
  { id := 1, video_url := "http://cdn/a.mp4", status := .processing,
    output_video_path := none, error_message := none }

/-- Environment: the tool exits non-zero (after writing an output under the
`htdemucs` convention). -/
def c8_env_toolfail : VRPipelineEnv :=
  { download_ok := true, extract_ok := true, demucs_returncode := 1,
    demucs_models_written := ["htdemucs"], merge_ok := true }

/-- Environment: the tool exits zero but writes no output under any known
convention. -/
def c8_env_notfound : VRPipelineEnv :=
  { download_ok := true, extract_ok := true, demucs_returncode := 0,
    demucs_models_written := [], merge_ok := true }

/-- A pending task shared by the two C8 runs. -/
def c8_task : VocalRemovalTask :=
  { id := 1, video_url := "u", status := .pending,
    output_video_path := none, error_message := none }

/-- A video-mode composite-dubbing record. -/
def c9_task : UserDubbing :=
  { id := 7, user_id := "u1", clip_path := "c/2.mp4",
    original_video_url := "http://cdn/v.mp4",
    user_audio_path := none, composite_video_path := none,
    status := .pending, error_message := none, is_public := true,
    mode := some "video", user_video_path := some "/user_videos/u.mp4" }

/-- Environment in which every tool succeeds. -/
def c9_env : CompositeEnv :=
  { download_ok := true, extract_ok := true, demucs_returncode := 0,
    demucs_models_written := [], mute_ok := true, merge_audio_ok := true,
    merge_video_ok := true, stack_ok := true }

/-- Disk contents for the C9 run: only the user's uploaded video exists. -/
def c9_fs : List String := ["server/user_videos/u.mp4"]

/-- A pending vocal-removal task for the C10 witness scenario. -/
def c10_task : VocalRemovalTask :=
  { id := 1, video_url := "u", status := .pending,
    output_video_path := none, error_message := none }

/-- Environment in which the download fails, driving the task to `failed`. -/
def c10_env : VRPipelineEnv :=
  { download_ok := false, extract_ok := false, demucs_returncode := 1,
    demucs_models_written := [], merge_ok := false }

def c10_s0 : SysState := { vr := [], dubs := [], cache := [], fs := [] }

def c10_s1 : SysState := { c10_s0 with vr := (request_vocal_removal c10_s0.vr "u" 1).2 }

def c10_s2 : SysState :=
  { c10_s1 with
    vr := (process_vocal_removal_task c10_s1.vr c10_s1.fs c10_task c10_env "wd").db,
    fs := (process_vocal_removal_task c10_s1.vr c10_s1.fs c10_task c10_env "wd").fs }

def c10_s3 : SysState := { c10_s2 with vr := cleanup_failed_vocal_removal_tasks c10_s2.vr }

/-! ### Theorems -/

theorem length_md5Bytes (msg : List Nat) : (md5Bytes msg).length = 16 := by
  simp [md5Bytes, toLEBytes4]

theorem length_flatMap_byteNibbles (l : List Nat) :
    (l.flatMap byteNibbles).length = 2 * l.length := by
  induction l with
  | nil => rfl
  | cons b t ih => simp [List.flatMap_cons, byteNibbles, ih]; ring

theorem length_md5Nibbles (s : String) : (md5Nibbles s).length = 32 := by
  unfold md5Nibbles
  rw [length_flatMap_byteNibbles, length_md5Bytes]

theorem take16_md5Nibbles_length (s : String) : ((md5Nibbles s).take 16).length = 16 := by
  simp [List.length_take, length_md5Nibbles]

theorem get_url_hash_data (s : String) :
    (get_url_hash s).data = ((md5Nibbles s).take 16).map hexChar := by
  simp [get_url_hash, md5_hexdigest, List.map_take]

theorem get_url_hash_eq_of_nibbles {s t : String}
    (h : (md5Nibbles s).take 16 = (md5Nibbles t).take 16) :
    get_url_hash s = get_url_hash t := by
  have hd : (get_url_hash s).data = (get_url_hash t).data := by
    rw [get_url_hash_data, get_url_hash_data, h]
  cases hs : get_url_hash s
  cases ht : get_url_hash t
  simp_all

theorem take16_eq_of_nibblePre16 {s t : String} (h : nibblePre16 s = nibblePre16 t) :
    (md5Nibbles s).take 16 = (md5Nibbles t).take 16 := by
  apply List.ext_getElem
  · rw [take16_md5Nibbles_length, take16_md5Nibbles_length]
  · intro i h1 h2
    have hi : i < 16 := by rwa [take16_md5Nibbles_length] at h1
    have hfun := congrFun h ⟨i, hi⟩
    unfold nibblePre16 at hfun
    rwa [List.getD_eq_getElem, List.getD_eq_getElem] at hfun

/-- C5 counterexample: `get_url_hash` truncates the MD5 hex digest to 16
characters, so it maps the infinitely many possible source URLs into a
finite set of digests; by the pigeonhole principle it is NOT injective —
two distinct source URLs with colliding digests (hence colliding cache keys
and on-disk filename stems) exist. -/
theorem c5_counterexample : ¬ Function.Injective get_url_hash := by
  obtain ⟨n, m, hne, heq⟩ :=
    Finite.exists_ne_map_eq_of_infinite (fun k => nibblePre16 (aString k))
  intro hinj
  have h1 : get_url_hash (aString n) = get_url_hash (aString m) :=
    get_url_hash_eq_of_nibbles (take16_eq_of_nibblePre16 heq)
  have h2 : aString n = aString m := hinj h1
  have h3 : List.replicate n 'a' = List.replicate m 'a' := congrArg String.data h2
  exact hne (by simpa using congrArg List.length h3)

/-- C1: enqueueing a vocal-removal job is idempotent per source URL: when a
record with a non-`failed` status (pending, processing or completed)
already exists for the URL, a second enqueue request leaves the store
unchanged and returns that record's current status, output path and error
message. -/
theorem c1_enqueue_idempotent (db : VRStore) (url : String) (fid : Nat)
    (t : VocalRemovalTask) (hget : get_vocal_removal_task db url = some t)
    (hlive : t.status ≠ .failed) :
    request_vocal_removal db url fid =
      ({ status := t.status, video_url := t.video_url,
         output_video_path := t.output_video_path,
         error_message := t.error_message }, db) := by
  unfold request_vocal_removal
  rw [hget]
  simp [hlive]

theorem c1_enqueue_idempotent_witness :
    get_vocal_removal_task c1_store "http://cdn/a.mp4" =
      some { id := 1, video_url := "http://cdn/a.mp4", status := .processing,
             output_video_path := none, error_message := none } ∧
    request_vocal_removal c1_store "http://cdn/a.mp4" 2 =
      ({ status := .processing, video_url := "http://cdn/a.mp4",
         output_video_path := none, error_message := none }, c1_store) :=
  ⟨by decide, c1_enqueue_idempotent c1_store "http://cdn/a.mp4" 2
    { id := 1, video_url := "http://cdn/a.mp4", status := .processing,
      output_video_path := none, error_message := none } (by decide) (by decide)⟩

/-- C2 counterexample: the claim says that between two worker startups no
operation deletes a failed record or re-creates a pending record for its
URL, but the enqueue route itself does exactly that: on a store whose only
record for `"u"` is `failed`, `request_vocal_removal` (an HTTP operation,
not the worker-startup purge) deletes the failed record and creates a
fresh `pending` one. -/
theorem c2_counterexample :
    (∃ t ∈ c2_store, t.status = .failed ∧ t.video_url = "u") ∧
    (request_vocal_removal c2_store "u" 2).2 =
      [{ id := 2, video_url := "u", status := .pending,
         output_video_path := none, error_message := none }] := by
  decide

/-- C2 amended: a `failed` vocal-removal record becomes eligible for a
fresh attempt in two ways — the purge at worker startup deletes exactly the
`failed` records, and a repeat enqueue request for the same URL deletes the
failed record and immediately creates a fresh `pending` record in its
place. -/
theorem c2_failed_retry_paths :
    (∀ (db : VRStore) (t : VocalRemovalTask),
      t ∈ cleanup_failed_vocal_removal_tasks db ↔ t ∈ db ∧ t.status ≠ .failed) ∧
    (∀ (db : VRStore) (url : String) (fid : Nat) (t : VocalRemovalTask),
      get_vocal_removal_task db url = some t → t.status = .failed →
      request_vocal_removal db url fid =
        ({ status := .pending, video_url := url,
           output_video_path := none, error_message := none },
         delete_vocal_removal_task db url ++
           [{ id := fid, video_url := url, status := .pending,
              output_video_path := none, error_message := none }])) := by
  constructor
  · intro db t
    simp [cleanup_failed_vocal_removal_tasks, List.mem_filter]
  · intro db url fid t hget hf
    unfold request_vocal_removal
    rw [hget]
    simp [hf, create_vocal_removal_task]

theorem c2_failed_retry_paths_witness :
    request_vocal_removal c2_store "u" 2 =
      ({ status := .pending, video_url := "u",
         output_video_path := none, error_message := none },
       delete_vocal_removal_task c2_store "u" ++
         [{ id := 2, video_url := "u", status := .pending,
            output_video_path := none, error_message := none }]) :=
  c2_failed_retry_paths.2 c2_store "u" 2
    { id := 1, video_url := "u", status := .failed,
      output_video_path := none, error_message := some "boom" }
    (by decide) rfl

/-! #### Store-update helper lemmas -/

theorem applyVRUpdate_id (t : VocalRemovalTask) (u : VRUpdate) :
    (applyVRUpdate t u).id = t.id := rfl

theorem applyDubUpdate_id (d : UserDubbing) (u : DubUpdate) :
    (applyDubUpdate d u).id = d.id := rfl

theorem mem_update_vr {db : VRStore} {i : Nat} {u : VRUpdate} {t' : VocalRemovalTask}
    (h : t' ∈ update_vocal_removal_task db i u) :
    ∃ t ∈ db, (t.id ≠ i ∧ t' = t) ∨ (t.id = i ∧ t' = applyVRUpdate t u) := by
  obtain ⟨t, ht, rfl⟩ := List.mem_map.mp h
  refine ⟨t, ht, ?_⟩
  by_cases hid : t.id = i <;> simp [hid]

theorem mem_update_dub {db : DubStore} {i : Nat} {u : DubUpdate} {d' : UserDubbing}
    (h : d' ∈ update_user_dubbing db i u) :
    ∃ d ∈ db, (d.id ≠ i ∧ d' = d) ∨ (d.id = i ∧ d' = applyDubUpdate d u) := by
  obtain ⟨d, hd, rfl⟩ := List.mem_map.mp h
  refine ⟨d, hd, ?_⟩
  by_cases hid : d.id = i <;> simp [hid]

theorem update_vr_ids (db : VRStore) (i : Nat) (u : VRUpdate) :
    (update_vocal_removal_task db i u).map (·.id) = db.map (·.id) := by
  unfold update_vocal_removal_task
  rw [List.map_map]
  refine List.map_congr_left ?_
  intro t _
  by_cases hid : t.id = i <;> simp [hid, applyVRUpdate]

theorem update_dub_ids (db : DubStore) (i : Nat) (u : DubUpdate) :
    (update_user_dubbing db i u).map (·.id) = db.map (·.id) := by
  unfold update_user_dubbing
  rw [List.map_map]
  refine List.map_congr_left ?_
  intro d _
  by_cases hid : d.id = i <;> simp [hid, applyDubUpdate]

theorem nodup_ids_filter {α : Type} (f : α → Nat) (p : α → Bool) {l : List α}
    (h : (l.map f).Nodup) : ((l.filter p).map f).Nodup :=
  ((List.filter_sublist l).map f).nodup h

theorem nodup_ids_append_fresh {α : Type} {f : α → Nat} {l : List α} {x : α}
    (hnd : (l.map f).Nodup) (hfresh : ∀ a ∈ l, f a ≠ f x) :
    ((l ++ [x]).map f).Nodup := by
  rw [List.map_append]
  simp only [List.nodup_append, List.map_cons, List.map_nil]
  refine ⟨hnd, List.nodup_singleton _, ?_⟩
  intro a ha
  obtain ⟨b, hb, rfl⟩ := List.mem_map.mp ha
  simp [hfresh b hb]

/-! #### Invariant preservation, one lemma per operation -/

theorem request_vr_store_inv {db : VRStore} (url : String) (fid : Nat)
    (hfresh : ∀ t ∈ db, t.id ≠ fid)
    (hnd : (db.map (·.id)).Nodup) (hinv : ∀ t ∈ db, vrStateInv t) :
    (((request_vocal_removal db url fid).2).map (·.id)).Nodup ∧
      ∀ t ∈ (request_vocal_removal db url fid).2, vrStateInv t := by
  have hpend : vrStateInv
      { id := fid, video_url := url, status := .pending,
        output_video_path := none, error_message := none } := by
    simp [vrStateInv]
  unfold request_vocal_removal
  cases hget : get_vocal_removal_task db url with
  | none =>
    simp only [create_vocal_removal_task]
    constructor
    · exact nodup_ids_append_fresh hnd hfresh
    · intro t ht
      rcases List.mem_append.mp ht with h | h
      · exact hinv t h
      · simp at h
        subst h
        exact hpend
  | some ex =>
    by_cases hf : ex.status = .failed
    · simp only [hf, if_pos rfl, create_vocal_removal_task, delete_vocal_removal_task]
      constructor
      · refine nodup_ids_append_fresh (nodup_ids_filter _ _ hnd) ?_
        intro a ha
        exact hfresh a (List.mem_of_mem_filter ha)
      · intro t ht
        rcases List.mem_append.mp ht with h | h
        · exact hinv t (List.mem_of_mem_filter h)
        · simp at h
          subst h
          exact hpend
    · simp only [hf, if_neg hf]
      exact ⟨hnd, hinv⟩

theorem processVR_db_eq (db : VRStore) (fs : List String) (task : VocalRemovalTask)
    (env : VRPipelineEnv) (wd : String) :
    (process_vocal_removal_task db fs task env wd).db =
      update_vocal_removal_task
        (update_vocal_removal_task db task.id { status := some .processing }) task.id
        (vrTerminalUpdate (vr_pipeline_body env (wd :: fs) task.video_url wd).2) := by
  unfold process_vocal_removal_task
  rcases h : vr_pipeline_body env (wd :: fs) task.video_url wd with ⟨fs', r⟩
  cases r <;> simp [h, vrTerminalUpdate]

theorem vr_double_update_inv {db : VRStore} {task : VocalRemovalTask} {u : VRUpdate}
    (hnd : (db.map (·.id)).Nodup) (hinv : ∀ t ∈ db, vrStateInv t)
    (hmem : task ∈ db) (hp : task.status = .pending)
    (hu : (∃ p, u = { status := some .completed, output_video_path := some p,
                      error_message := none }) ∨
          (∃ e, u = { status := some .failed, output_video_path := none,
                      error_message := some e })) :
    ((update_vocal_removal_task
        (update_vocal_removal_task db task.id { status := some .processing })
        task.id u).map (·.id)).Nodup ∧
      ∀ t' ∈ update_vocal_removal_task
        (update_vocal_removal_task db task.id { status := some .processing })
        task.id u, vrStateInv t' := by
  constructor
  · rw [update_vr_ids, update_vr_ids]
    exact hnd
  · intro t' ht'
    obtain ⟨t1, ht1, hcase1⟩ := mem_update_vr ht'
    obtain ⟨t0, ht0, hcase0⟩ := mem_update_vr ht1
    rcases hcase0 with ⟨hneq, rfl⟩ | ⟨heq, rfl⟩
    · rcases hcase1 with ⟨_, rfl⟩ | ⟨heq1, _⟩
      · exact hinv _ ht0
      · exact absurd heq1 hneq
    · have ht0task : t0 = task := List.inj_on_of_nodup_map hnd ht0 hmem heq
      have hst : t0.status = .pending := by rw [ht0task, hp]
      have hfield : t0.output_video_path = none ∧ t0.error_message = none := by
        have hi := hinv t0 ht0
        unfold vrStateInv at hi
        rw [hst] at hi
        exact hi
      rcases hcase1 with ⟨hneq1, _⟩ | ⟨_, rfl⟩
      · exact absurd (by rw [applyVRUpdate_id]; exact heq) hneq1
      · rcases hu with ⟨p, rfl⟩ | ⟨e, rfl⟩ <;>
          simp [applyVRUpdate, vrStateInv, hfield.1, hfield.2]

theorem processDub_dubs_eq (dubs : DubStore) (cache : CacheStore) (fs : List String)
    (task : UserDubbing) (env : CompositeEnv) (wd gwd : String) :
    (process_composite_video_task dubs cache fs task env wd gwd).dubs =
      update_user_dubbing
        (update_user_dubbing dubs task.id { status := some .processing }) task.id
        (dubTerminalUpdate (composite_pipeline_body cache (wd :: fs) task env wd gwd).outcome) := by
  unfold process_composite_video_task
  rcases h : (composite_pipeline_body cache (wd :: fs) task env wd gwd).outcome with p | e
  all_goals simp [h, dubTerminalUpdate]

theorem dub_double_update_inv {db : DubStore} {task : UserDubbing} {u : DubUpdate}
    (hnd : (db.map (·.id)).Nodup) (hinv : ∀ d ∈ db, dubStateInv d)
    (hmem : task ∈ db) (hp : task.status = .pending)
    (hu : (∃ p, u = { status := some .completed, composite_video_path := some p,
                      error_message := none, is_public := none }) ∨
          (∃ e, u = { status := some .failed, composite_video_path := none,
                      error_message := some e, is_public := none })) :
    ((update_user_dubbing
        (update_user_dubbing db task.id { status := some .processing })
        task.id u).map (·.id)).Nodup ∧
      ∀ d' ∈ update_user_dubbing
        (update_user_dubbing db task.id { status := some .processing })
        task.id u, dubStateInv d' := by
  constructor
  · rw [update_dub_ids, update_dub_ids]
    exact hnd
  · intro d' hd'
    obtain ⟨d1, hd1, hcase1⟩ := mem_update_dub hd'
    obtain ⟨d0, hd0, hcase0⟩ := mem_update_dub hd1
    rcases hcase0 with ⟨hneq, rfl⟩ | ⟨heq, rfl⟩
    · rcases hcase1 with ⟨_, rfl⟩ | ⟨heq1, _⟩
      · exact hinv _ hd0
      · exact absurd heq1 hneq
    · have hd0task : d0 = task := List.inj_on_of_nodup_map hnd hd0 hmem heq
      have hst : d0.status = .pending := by rw [hd0task, hp]
      have hfield : d0.composite_video_path = none ∧ d0.error_message = none := by
        have hi := hinv d0 hd0
        unfold dubStateInv at hi
        rw [hst] at hi
        exact hi
      rcases hcase1 with ⟨hneq1, _⟩ | ⟨_, rfl⟩
      · exact absurd (by rw [applyDubUpdate_id]; exact heq) hneq1
      · rcases hu with ⟨p, rfl⟩ | ⟨e, rfl⟩ <;>
          simp [applyDubUpdate, dubStateInv, hfield.1, hfield.2]

theorem vrTerminalUpdate_shape (r : Except String String) :
    (∃ p, vrTerminalUpdate r =
        { status := some .completed, output_video_path := some p, error_message := none }) ∨
      (∃ e, vrTerminalUpdate r =
        { status := some .failed, output_video_path := none, error_message := some e }) := by
  cases r with
  | ok p => exact .inl ⟨p, rfl⟩
  | error e => exact .inr ⟨e, rfl⟩

theorem dubTerminalUpdate_shape (r : Except String String) :
    (∃ p, dubTerminalUpdate r =
        { status := some .completed, composite_video_path := some p,
          error_message := none, is_public := none }) ∨
      (∃ e, dubTerminalUpdate r =
        { status := some .failed, composite_video_path := none,
          error_message := some e, is_public := none }) := by
  cases r with
  | ok p => exact .inl ⟨p, rfl⟩
  | error e => exact .inr ⟨e, rfl⟩

theorem set_public_inv {db : DubStore} (i : Nat) (b : Bool)
    (hnd : (db.map (·.id)).Nodup) (hinv : ∀ d ∈ db, dubStateInv d) :
    ((update_user_dubbing db i { is_public := some b }).map (·.id)).Nodup ∧
      ∀ d' ∈ update_user_dubbing db i { is_public := some b }, dubStateInv d' := by
  refine ⟨by rw [update_dub_ids]; exact hnd, ?_⟩
  intro d' hd'
  obtain ⟨d, hd, hcase⟩ := mem_update_dub hd'
  rcases hcase with ⟨_, rfl⟩ | ⟨_, rfl⟩
  · exact hinv _ hd
  · have hi := hinv d hd
    unfold dubStateInv at hi ⊢
    simpa [applyDubUpdate] using hi

/-- Every reachable state has distinct primary keys and field/status
consistency in both job stores. -/
theorem reachable_SysInv {s : SysState} (h : Reachable s) : SysInv s := by
  induction h with
  | init fs => exact ⟨by simp, by simp, by simp, by simp⟩
  | @step s0 s1 hr hstep ih =>
    obtain ⟨hnd1, hnd2, hinv1, hinv2⟩ := ih
    cases hstep with
    | requestVocalRemoval url fid hfresh =>
      have h1 := request_vr_store_inv url fid hfresh hnd1 hinv1
      exact ⟨h1.1, hnd2, h1.2, hinv2⟩
    | vocalWorkerStartup =>
      exact ⟨nodup_ids_filter _ _ hnd1, hnd2,
        fun t ht => hinv1 t (List.mem_of_mem_filter ht), hinv2⟩
    | processVocalRemoval task env wd hmem hp =>
      have h1 := vr_double_update_inv hnd1 hinv1 hmem hp
        (vrTerminalUpdate_shape (vr_pipeline_body env (wd :: s0.fs) task.video_url wd).2)
      refine ⟨?_, hnd2, ?_, hinv2⟩
      · rw [show ({ s0 with
            vr := (process_vocal_removal_task s0.vr s0.fs task env wd).db,
            fs := (process_vocal_removal_task s0.vr s0.fs task env wd).fs } : SysState).vr =
            (process_vocal_removal_task s0.vr s0.fs task env wd).db from rfl,
          processVR_db_eq]
        exact h1.1
      · intro t ht
        rw [show ({ s0 with
            vr := (process_vocal_removal_task s0.vr s0.fs task env wd).db,
            fs := (process_vocal_removal_task s0.vr s0.fs task env wd).fs } : SysState).vr =
            (process_vocal_removal_task s0.vr s0.fs task env wd).db from rfl,
          processVR_db_eq] at ht
        exact h1.2 t ht
    | createComposite fid uid cp vu af hfresh =>
      refine ⟨hnd1, ?_, hinv1, ?_⟩
      · exact nodup_ids_append_fresh hnd2 hfresh
      · intro d hd
        rcases List.mem_append.mp hd with hmem | hmem
        · exact hinv2 d hmem
        · simp only [List.mem_singleton] at hmem
          subst hmem
          simp [dubStateInv]
    | compositeWorkerStartup =>
      exact ⟨hnd1, nodup_ids_filter _ _ hnd2, hinv1,
        fun d hd => hinv2 d (List.mem_of_mem_filter hd)⟩
    | processComposite task env wd gwd hmem hp =>
      have h1 := dub_double_update_inv hnd2 hinv2 hmem hp
        (dubTerminalUpdate_shape
          (composite_pipeline_body s0.cache (wd :: s0.fs) task env wd gwd).outcome)
      refine ⟨hnd1, ?_, hinv1, ?_⟩
      · rw [show ({ s0 with
            dubs := (process_composite_video_task s0.dubs s0.cache s0.fs task env wd gwd).dubs,
            cache := (process_composite_video_task s0.dubs s0.cache s0.fs task env wd gwd).cache,
            fs := (process_composite_video_task s0.dubs s0.cache s0.fs task env wd gwd).fs }
              : SysState).dubs =
            (process_composite_video_task s0.dubs s0.cache s0.fs task env wd gwd).dubs from rfl,
          processDub_dubs_eq]
        exact h1.1
      · intro d hd
        rw [show ({ s0 with
            dubs := (process_composite_video_task s0.dubs s0.cache s0.fs task env wd gwd).dubs,
            cache := (process_composite_video_task s0.dubs s0.cache s0.fs task env wd gwd).cache,
            fs := (process_composite_video_task s0.dubs s0.cache s0.fs task env wd gwd).fs }
              : SysState).dubs =
            (process_composite_video_task s0.dubs s0.cache s0.fs task env wd gwd).dubs from rfl,
          processDub_dubs_eq] at hd
        exact h1.2 d hd
    | setPublicFlag i b =>
      have h1 := set_public_inv i b hnd2 hinv2
      exact ⟨hnd1, h1.1, hinv1, h1.2⟩
    | deleteDubbing i uid =>
      exact ⟨hnd1, nodup_ids_filter _ _ hnd2, hinv1,
        fun d hd => hinv2 d (List.mem_of_mem_filter hd)⟩

/-- C3: in every reachable state, a `completed` record has a non-null
output path, a `failed` record has a non-null error message, and the
output path and error message are never both set on the same record — for
vocal-removal and composite-dubbing records alike. -/
theorem c3_terminal_field_invariant (s : SysState) (h : Reachable s) :
    (∀ t ∈ s.vr,
      (t.status = .completed → t.output_video_path.isSome) ∧
      (t.status = .failed → t.error_message.isSome) ∧
      ¬(t.output_video_path.isSome ∧ t.error_message.isSome)) ∧
    (∀ d ∈ s.dubs,
      (d.status = .completed → d.composite_video_path.isSome) ∧
      (d.status = .failed → d.error_message.isSome) ∧
      ¬(d.composite_video_path.isSome ∧ d.error_message.isSome)) := by
  obtain ⟨-, -, hinv1, hinv2⟩ := reachable_SysInv h
  constructor
  · intro t ht
    have hi := hinv1 t ht
    unfold vrStateInv at hi
    cases hst : t.status with
    | pending =>
      rw [hst] at hi
      exact ⟨by simp [hst], by simp [hst], by simp [hi.1]⟩
    | processing =>
      rw [hst] at hi
      exact ⟨by simp [hst], by simp [hst], by simp [hi.1]⟩
    | completed =>
      rw [hst] at hi
      exact ⟨fun _ => hi.1, by simp [hst], by simp [hi.2]⟩
    | failed =>
      rw [hst] at hi
      exact ⟨by simp [hst], fun _ => hi.2, by simp [hi.1]⟩
  · intro d hd
    have hi := hinv2 d hd
    unfold dubStateInv at hi
    cases hst : d.status with
    | pending =>
      rw [hst] at hi
      exact ⟨by simp [hst], by simp [hst], by simp [hi.1]⟩
    | processing =>
      rw [hst] at hi
      exact ⟨by simp [hst], by simp [hst], by simp [hi.1]⟩
    | completed =>
      rw [hst] at hi
      exact ⟨fun _ => hi.1, by simp [hst], by simp [hi.2]⟩
    | failed =>
      rw [hst] at hi
      exact ⟨by simp [hst], fun _ => hi.2, by simp [hi.1]⟩

theorem c3_terminal_field_invariant_witness :
    (∀ t ∈ (request_vocal_removal ([] : VRStore) "u" 1).2,
      (t.status = .completed → t.output_video_path.isSome) ∧
      (t.status = .failed → t.error_message.isSome) ∧
      ¬(t.output_video_path.isSome ∧ t.error_message.isSome)) ∧
    (∀ d ∈ ([] : DubStore),
      (d.status = .completed → d.composite_video_path.isSome) ∧
      (d.status = .failed → d.error_message.isSome) ∧
      ¬(d.composite_video_path.isSome ∧ d.error_message.isSome)) :=
  c3_terminal_field_invariant _
    (Reachable.step (Reachable.init [])
      (Step.requestVocalRemoval { vr := [], dubs := [], cache := [], fs := [] }
        "u" 1 (by simp)))

/-! #### Terminal-status stability helpers -/

theorem stable_sub_append_fresh {α : Type} {idf : α → Nat} {stf : α → Status}
    {l l' : List α} {x : α}
    (hnd : (l.map idf).Nodup) (hsub : ∀ y ∈ l', y ∈ l)
    (hfresh : ∀ a ∈ l, idf a ≠ idf x) :
    ∀ a ∈ l, ∀ b ∈ l' ++ [x], idf b = idf a → stf b = stf a := by
  intro a ha b hb hid
  rcases List.mem_append.mp hb with h | h
  · rw [List.inj_on_of_nodup_map hnd (hsub b h) ha hid]
  · simp only [List.mem_singleton] at h
    subst h
    exact absurd hid.symm (hfresh a ha)

theorem stable_subset {α : Type} {idf : α → Nat} {stf : α → Status} {l l' : List α}
    (hnd : (l.map idf).Nodup) (hsub : ∀ y ∈ l', y ∈ l) :
    ∀ a ∈ l, ∀ b ∈ l', idf b = idf a → stf b = stf a := by
  intro a ha b hb hid
  rw [List.inj_on_of_nodup_map hnd (hsub b hb) ha hid]

theorem vr_process_stable {db : VRStore} {fs : List String} {task : VocalRemovalTask}
    {env : VRPipelineEnv} {wd : String}
    (hnd : (db.map (·.id)).Nodup) (hmem : task ∈ db) (hp : task.status = .pending) :
    ∀ a ∈ db, a.status.terminal →
      ∀ b ∈ (process_vocal_removal_task db fs task env wd).db,
        b.id = a.id → b.status = a.status := by
  rw [processVR_db_eq]
  intro a ha hterm b hb hid
  obtain ⟨t1, ht1, hcase1⟩ := mem_update_vr hb
  obtain ⟨t0, ht0, hcase0⟩ := mem_update_vr ht1
  rcases hcase0 with ⟨hneq, rfl⟩ | ⟨heq, rfl⟩
  · rcases hcase1 with ⟨_, rfl⟩ | ⟨heq1, _⟩
    · rw [List.inj_on_of_nodup_map hnd ht0 ha hid]
    · exact absurd heq1 hneq
  · have hbid : b.id = t0.id := by
      rcases hcase1 with ⟨_, rfl⟩ | ⟨_, rfl⟩ <;> simp [applyVRUpdate_id]
    have hat : a = task := by
      refine List.inj_on_of_nodup_map hnd ha hmem ?_
      rw [← hid, hbid, heq]
    rw [hat, hp] at hterm
    exact hterm.elim

theorem dub_process_stable {db : DubStore} {cache : CacheStore} {fs : List String}
    {task : UserDubbing} {env : CompositeEnv} {wd gwd : String}
    (hnd : (db.map (·.id)).Nodup) (hmem : task ∈ db) (hp : task.status = .pending) :
    ∀ a ∈ db, a.status.terminal →
      ∀ b ∈ (process_composite_video_task db cache fs task env wd gwd).dubs,
        b.id = a.id → b.status = a.status := by
  rw [processDub_dubs_eq]
  intro a ha hterm b hb hid
  obtain ⟨d1, hd1, hcase1⟩ := mem_update_dub hb
  obtain ⟨d0, hd0, hcase0⟩ := mem_update_dub hd1
  rcases hcase0 with ⟨hneq, rfl⟩ | ⟨heq, rfl⟩
  · rcases hcase1 with ⟨_, rfl⟩ | ⟨heq1, _⟩
    · rw [List.inj_on_of_nodup_map hnd hd0 ha hid]
    · exact absurd heq1 hneq
  · have hbid : b.id = d0.id := by
      rcases hcase1 with ⟨_, rfl⟩ | ⟨_, rfl⟩ <;> simp [applyDubUpdate_id]
    have hat : a = task := by
      refine List.inj_on_of_nodup_map hnd ha hmem ?_
      rw [← hid, hbid, heq]
    rw [hat, hp] at hterm
    exact hterm.elim

theorem dub_set_public_stable {db : DubStore} {i : Nat} {b : Bool}
    (hnd : (db.map (·.id)).Nodup) :
    ∀ a ∈ db, ∀ d' ∈ update_user_dubbing db i { is_public := some b },
      d'.id = a.id → d'.status = a.status := by
  intro a ha d' hd' hid
  obtain ⟨d0, hd0, hcase⟩ := mem_update_dub hd'
  have hst : d'.status = d0.status := by
    rcases hcase with ⟨_, rfl⟩ | ⟨_, rfl⟩ <;> rfl
  have hidd : d'.id = d0.id := by
    rcases hcase with ⟨_, rfl⟩ | ⟨_, rfl⟩ <;> rfl
  rw [hst, List.inj_on_of_nodup_map hnd hd0 ha (by rw [← hidd, hid])]

/-- C10: once a record's status is terminal (`completed` or `failed`), no
operation of the system transitions that same record (same primary key) to
any other status: every record present after a step and sharing the id of
a terminal record still carries exactly that status.  Recovery paths
delete the record and create a fresh one under a fresh id. -/
theorem c10_terminal_no_exit (s s' : SysState) (hr : Reachable s) (hstep : Step s s') :
    (∀ t ∈ s.vr, t.status.terminal →
      ∀ t' ∈ s'.vr, t'.id = t.id → t'.status = t.status) ∧
    (∀ d ∈ s.dubs, d.status.terminal →
      ∀ d' ∈ s'.dubs, d'.id = d.id → d'.status = d.status) := by
  obtain ⟨hnd1, hnd2, hinv1, hinv2⟩ := reachable_SysInv hr
  cases hstep with
  | requestVocalRemoval url fid hfresh =>
    refine ⟨?_, fun d hd _ d' hd' hid => stable_subset hnd2 (fun y hy => hy) d hd d' hd' hid⟩
    intro t ht hterm t' ht' hid
    revert ht'
    unfold request_vocal_removal
    cases hget : get_vocal_removal_task s.vr url with
    | none =>
      simp only [create_vocal_removal_task]
      intro ht'
      exact stable_sub_append_fresh hnd1 (fun y hy => hy) hfresh t ht t' ht' hid
    | some ex =>
      by_cases hf : ex.status = .failed
      · simp only [hf, if_pos rfl, create_vocal_removal_task, delete_vocal_removal_task]
        intro ht'
        exact stable_sub_append_fresh hnd1
          (fun y hy => List.mem_of_mem_filter hy) hfresh t ht t' ht' hid
      · simp only [if_neg hf]
        intro ht'
        exact stable_subset hnd1 (fun y hy => hy) t ht t' ht' hid
  | vocalWorkerStartup =>
    exact ⟨fun t ht _ t' ht' hid =>
        stable_subset hnd1 (fun y hy => List.mem_of_mem_filter hy) t ht t' ht' hid,
      fun d hd _ d' hd' hid => stable_subset hnd2 (fun y hy => hy) d hd d' hd' hid⟩
  | processVocalRemoval task env wd hmem hp =>
    exact ⟨fun t ht hterm t' ht' hid => vr_process_stable hnd1 hmem hp t ht hterm t' ht' hid,
      fun d hd _ d' hd' hid => stable_subset hnd2 (fun y hy => hy) d hd d' hd' hid⟩
  | createComposite fid uid cp vu af hfresh =>
    refine ⟨fun t ht _ t' ht' hid => stable_subset hnd1 (fun y hy => hy) t ht t' ht' hid, ?_⟩
    intro d hd hterm d' hd' hid
    simp only [create_composite_video] at hd'
    exact stable_sub_append_fresh hnd2 (fun y hy => hy) hfresh d hd d' hd' hid
  | compositeWorkerStartup =>
    exact ⟨fun t ht _ t' ht' hid => stable_subset hnd1 (fun y hy => hy) t ht t' ht' hid,
      fun d hd _ d' hd' hid =>
        stable_subset hnd2 (fun y hy => List.mem_of_mem_filter hy) d hd d' hd' hid⟩
  | processComposite task env wd gwd hmem hp =>
    exact ⟨fun t ht _ t' ht' hid => stable_subset hnd1 (fun y hy => hy) t ht t' ht' hid,
      fun d hd hterm d' hd' hid => dub_process_stable hnd2 hmem hp d hd hterm d' hd' hid⟩
  | setPublicFlag i b =>
    exact ⟨fun t ht _ t' ht' hid => stable_subset hnd1 (fun y hy => hy) t ht t' ht' hid,
      fun d hd _ d' hd' hid => dub_set_public_stable hnd2 d hd d' hd' hid⟩
  | deleteDubbing i uid =>
    exact ⟨fun t ht _ t' ht' hid => stable_subset hnd1 (fun y hy => hy) t ht t' ht' hid,
      fun d hd _ d' hd' hid =>
        stable_subset hnd2 (fun y hy => List.mem_of_mem_filter hy) d hd d' hd' hid⟩

/-! #### C4 — the catch-all of both executors -/

theorem mem_update_vr_at_id {db : VRStore} {i : Nat} {u : VRUpdate} {t' : VocalRemovalTask}
    (ht' : t' ∈ update_vocal_removal_task db i u) (hid : t'.id = i) :
    ∃ t ∈ db, t' = applyVRUpdate t u := by
  obtain ⟨t, ht, hcase⟩ := mem_update_vr ht'
  rcases hcase with ⟨hneq, rfl⟩ | ⟨_, rfl⟩
  · exact absurd hid hneq
  · exact ⟨t, ht, rfl⟩

theorem mem_update_dub_at_id {db : DubStore} {i : Nat} {u : DubUpdate} {d' : UserDubbing}
    (hd' : d' ∈ update_user_dubbing db i u) (hid : d'.id = i) :
    ∃ d ∈ db, d' = applyDubUpdate d u := by
  obtain ⟨d, hd, hcase⟩ := mem_update_dub hd'
  rcases hcase with ⟨hneq, rfl⟩ | ⟨_, rfl⟩
  · exact absurd hid hneq
  · exact ⟨d, hd, rfl⟩

theorem mem_update_vr_self {db : VRStore} {u : VRUpdate} {task : VocalRemovalTask}
    (hmem : task ∈ db) {i : Nat} (hi : task.id = i) :
    applyVRUpdate task u ∈ update_vocal_removal_task db i u := by
  unfold update_vocal_removal_task
  have h := List.mem_map_of_mem (fun t => if t.id = i then applyVRUpdate t u else t) hmem
  simpa [hi] using h

theorem mem_update_dub_self {db : DubStore} {u : DubUpdate} {task : UserDubbing}
    (hmem : task ∈ db) {i : Nat} (hi : task.id = i) :
    applyDubUpdate task u ∈ update_user_dubbing db i u := by
  unfold update_user_dubbing
  have h := List.mem_map_of_mem (fun d => if d.id = i then applyDubUpdate d u else d) hmem
  simpa [hi] using h

/-- C4: no exception escapes a pipeline executor.  For every environment in
which some step of the step sequence fails — whatever the step and whatever
the error — the executor returns normally with a failure dict carrying the
stringified error, and the job record (same id) now holds status `failed`
together with exactly that error message; this holds for the vocal-removal
and the composite-dubbing executor alike. -/
theorem c4_executor_catch_all :
    (∀ (db : VRStore) (fs : List String) (task : VocalRemovalTask)
        (env : VRPipelineEnv) (wd msg : String),
      task ∈ db →
      (vr_pipeline_body env (wd :: fs) task.video_url wd).2 = .error msg →
      (process_vocal_removal_task db fs task env wd).result = .failure msg ∧
      (∃ t' ∈ (process_vocal_removal_task db fs task env wd).db, t'.id = task.id) ∧
      ∀ t' ∈ (process_vocal_removal_task db fs task env wd).db,
        t'.id = task.id → t'.status = .failed ∧ t'.error_message = some msg) ∧
    (∀ (dubs : DubStore) (cache : CacheStore) (fs : List String) (task : UserDubbing)
        (env : CompositeEnv) (wd gwd msg : String),
      task ∈ dubs →
      (composite_pipeline_body cache (wd :: fs) task env wd gwd).outcome = .error msg →
      (process_composite_video_task dubs cache fs task env wd gwd).result = .failure msg ∧
      (∃ d' ∈ (process_composite_video_task dubs cache fs task env wd gwd).dubs,
        d'.id = task.id) ∧
      ∀ d' ∈ (process_composite_video_task dubs cache fs task env wd gwd).dubs,
        d'.id = task.id → d'.status = .failed ∧ d'.error_message = some msg) := by
  constructor
  · intro db fs task env wd msg hmem herr
    have hres : (process_vocal_removal_task db fs task env wd).result = .failure msg := by
      unfold process_vocal_removal_task
      rcases hb : vr_pipeline_body env (wd :: fs) task.video_url wd with ⟨fs2, r⟩
      rw [hb] at herr
      simp only at herr
      subst herr
      simp [hb]
    refine ⟨hres, ?_, ?_⟩
    · rw [processVR_db_eq]
      refine ⟨applyVRUpdate (applyVRUpdate task { status := some .processing })
        (vrTerminalUpdate (vr_pipeline_body env (wd :: fs) task.video_url wd).2), ?_, ?_⟩
      · exact mem_update_vr_self (mem_update_vr_self hmem rfl) (applyVRUpdate_id task _)
      · rw [applyVRUpdate_id, applyVRUpdate_id]
    · intro t' ht' hid
      rw [processVR_db_eq] at ht'
      obtain ⟨t1, _, rfl⟩ := mem_update_vr_at_id ht' hid
      rw [herr]
      exact ⟨rfl, rfl⟩
  · intro dubs cache fs task env wd gwd msg hmem herr
    have hres : (process_composite_video_task dubs cache fs task env wd gwd).result =
        .failure msg := by
      unfold process_composite_video_task
      rcases hb : (composite_pipeline_body cache (wd :: fs) task env wd gwd).outcome with e | p
      · rw [hb] at herr
        obtain rfl : e = msg := by injection herr
        simp [hb]
      · rw [hb] at herr
        exact absurd herr (by simp)
    refine ⟨hres, ?_, ?_⟩
    · rw [processDub_dubs_eq]
      refine ⟨applyDubUpdate (applyDubUpdate task { status := some .processing })
        (dubTerminalUpdate (composite_pipeline_body cache (wd :: fs) task env wd gwd).outcome),
        ?_, ?_⟩
      · exact mem_update_dub_self (mem_update_dub_self hmem rfl) (applyDubUpdate_id task _)
      · rw [applyDubUpdate_id, applyDubUpdate_id]
    · intro d' hd' hid
      rw [processDub_dubs_eq] at hd'
      obtain ⟨d1, _, rfl⟩ := mem_update_dub_at_id hd' hid
      rw [herr]
      exact ⟨rfl, rfl⟩

theorem c4_executor_catch_all_witness :
    ((process_vocal_removal_task c1_store [] c4_task c4_env "wd").result =
      .failure "下载视频失败" ∧
      (∃ t' ∈ (process_vocal_removal_task c1_store [] c4_task c4_env "wd").db,
        t'.id = c4_task.id)) ∧
    ((process_composite_video_task [c4_dub] [] [] c4_dub c4_cenv "wd" "gwd").result =
      .failure "获取背景音或无声视频失败" ∧
      ∀ d' ∈ (process_composite_video_task [c4_dub] [] [] c4_dub c4_cenv "wd" "gwd").dubs,
        d'.id = c4_dub.id → d'.status = .failed ∧
          d'.error_message = some "获取背景音或无声视频失败") := by
  have h1 := c4_executor_catch_all.1 c1_store [] c4_task c4_env "wd" "下载视频失败"
    (by decide) (by decide)
  have h2 := c4_executor_catch_all.2 [c4_dub] [] [] c4_dub c4_cenv "wd" "gwd"
    "获取背景音或无声视频失败" (by decide) (by decide)
  exact ⟨⟨h1.1, h1.2.1⟩, h2.1, h2.2.2⟩

/-! #### C6 — unconditional working-directory cleanup -/

theorem not_mem_rmtreeFs_self (fs : List String) (d : String) : d ∉ rmtreeFs fs d := by
  intro h
  have hp := (List.mem_filter.mp h).2
  simp at hp

/-- C6: on every exit path of either pipeline executor — success, failure of
any step, or an exception raised mid-pipeline (any environment) — the job's
private temporary working directory has been deleted: it does not exist on
disk after the executor returns. -/
theorem c6_workdir_always_removed :
    (∀ (db : VRStore) (fs : List String) (task : VocalRemovalTask)
        (env : VRPipelineEnv) (wd : String),
      wd ∉ (process_vocal_removal_task db fs task env wd).fs) ∧
    (∀ (dubs : DubStore) (cache : CacheStore) (fs : List String) (task : UserDubbing)
        (env : CompositeEnv) (wd gwd : String),
      wd ∉ (process_composite_video_task dubs cache fs task env wd gwd).fs) := by
  constructor
  · intro db fs task env wd
    unfold process_vocal_removal_task
    rcases hb : vr_pipeline_body env (wd :: fs) task.video_url wd with ⟨fs2, r⟩
    cases r <;> simp only [hb] <;> exact not_mem_rmtreeFs_self _ _
  · intro dubs cache fs task env wd gwd
    unfold process_composite_video_task
    rcases hb : (composite_pipeline_body cache (wd :: fs) task env wd gwd).outcome with p | e <;>
      simp only [hb] <;> exact not_mem_rmtreeFs_self _ _

/-! #### C7 — media-cache lookup semantics -/

/-- C7: the media-cache lookup used by the composite executor returns a hit
exactly when the stored records exist and the files at their recorded paths
still exist on disk; in particular a dangling record (row present, file
missing) is a miss, not an error, and on any miss
`get_or_create_background_and_mute_video` proceeds to the recompute branch. -/
theorem c7_cache_lookup_iff (cache : CacheStore) (fs : List String) (url : String)
    (env : CompositeEnv) (gwd : String) :
    (∀ bgP muP, goc_cache_hit cache fs url = some (bgP, muP) ↔
      ∃ bg mu,
        get_media_cache cache (get_url_hash url ++ ":background") = some bg ∧
        get_media_cache cache (get_url_hash url ++ ":mute-video") = some mu ∧
        bgP = osJoin server_dir (lstripSlash bg.file_path) ∧
        muP = osJoin server_dir (lstripSlash mu.file_path) ∧
        bgP ∈ fs ∧ muP ∈ fs) ∧
    (goc_cache_hit cache fs url = none →
      get_or_create_background_and_mute_video cache fs url env gwd =
        goc_create cache fs url env gwd) := by
  constructor
  · intro bgP muP
    unfold goc_cache_hit
    cases hbg : get_media_cache cache (get_url_hash url ++ ":background") with
    | none => simp [hbg]
    | some bg =>
      cases hmu : get_media_cache cache (get_url_hash url ++ ":mute-video") with
      | none => simp [hbg, hmu]
      | some mu =>
        simp only [hbg, hmu]
        constructor
        · intro h
          by_cases hc : (fs.contains (osJoin server_dir (lstripSlash bg.file_path)) &&
              fs.contains (osJoin server_dir (lstripSlash mu.file_path))) = true
          · rw [if_pos hc] at h
            rw [Option.some.injEq, Prod.mk.injEq] at h
            obtain ⟨h1, h2⟩ := h
            have hc' : osJoin server_dir (lstripSlash bg.file_path) ∈ fs ∧
                osJoin server_dir (lstripSlash mu.file_path) ∈ fs := by
              rw [Bool.and_eq_true] at hc
              exact ⟨by simpa using hc.1, by simpa using hc.2⟩
            exact ⟨bg, mu, rfl, rfl, h1.symm, h2.symm, h1 ▸ hc'.1, h2 ▸ hc'.2⟩
          · rw [if_neg hc] at h
            exact absurd h (by simp)
        · rintro ⟨bg', mu', hbg', hmu', rfl, rfl, hin1, hin2⟩
          injection hbg' with hbg2
          injection hmu' with hmu2
          subst hbg2
          subst hmu2
          rw [if_pos]
          rw [Bool.and_eq_true]
          exact ⟨by simpa using hin1, by simpa using hin2⟩
  · intro h
    unfold get_or_create_background_and_mute_video
    rw [h]

/-- A miss on the empty cache: the lookup reports a miss and the full
function proceeds to the recompute branch. -/
theorem c7_cache_lookup_iff_witness :
    goc_cache_hit [] [] "u" = none ∧
    get_or_create_background_and_mute_video [] [] "u" c4_cenv "gwd" =
      goc_create [] [] "u" c4_cenv "gwd" := by
  have h := (c7_cache_lookup_iff [] [] "u" c4_cenv "gwd").2
  have hmiss : goc_cache_hit ([] : CacheStore) [] "u" = none := by
    unfold goc_cache_hit get_media_cache
    simp [List.find?]
  exact ⟨hmiss, h hmiss⟩

/-! #### C8 — the Demucs output-convention search and its two failure modes -/

/-- C8 counterexample: "tool exited non-zero" and "expected output file not
found under any known convention" are NOT distinguishable in the executor's
outcome.  `remove_vocals_with_demucs` returns `None` in both cases, and two
full executor runs that fail for the two different reasons produce
identical results — same store (same recorded error `人声分离失败`), same
filesystem, same returned dict.  The two causes differ only in log output. -/
theorem c8_counterexample :
    c8_env_toolfail.demucs_returncode ≠ 0 ∧
    c8_env_notfound.demucs_returncode = 0 ∧
    c8_env_notfound.demucs_models_written = [] ∧
    remove_vocals_with_demucs 1 ["out/htdemucs/audio/no_vocals.wav"] "audio" "out" = none ∧
    remove_vocals_with_demucs 0 [] "audio" "out" = none ∧
    process_vocal_removal_task [c8_task] [] c8_task c8_env_toolfail "wd" =
      process_vocal_removal_task [c8_task] [] c8_task c8_env_notfound "wd" := by
  decide

/-- C8 amended: the executor searches exactly the four known
output-directory conventions (`htdemucs`, `htdemucs_ft`, `mdx_extra`,
`demucs`), taking the first that exists on disk; a non-zero tool exit and a
missing output both yield no path, and every error an executor run records
comes from the fixed per-step vocabulary, the Demucs step contributing the
single message `人声分离失败` for both failure modes — the two causes are
distinguished only in log output, not in the executor's outcome. -/
theorem c8_demucs_search :
    (∀ (rc : Nat) (fs : List String) (base dir : String),
      rc ≠ 0 → remove_vocals_with_demucs rc fs base dir = none) ∧
    (∀ (fs : List String) (base dir : String),
      remove_vocals_with_demucs 0 fs base dir =
        (possible_models.map (fun m => demucsCandidate dir m base)).find?
          (fun p => fs.contains p)) ∧
    (∀ (rc : Nat) (fs : List String) (base dir p : String),
      remove_vocals_with_demucs rc fs base dir = some p →
      (∃ m ∈ possible_models, p = demucsCandidate dir m base) ∧ p ∈ fs) ∧
    (∀ (env : VRPipelineEnv) (fs : List String) (url wd e : String),
      (vr_pipeline_body env fs url wd).2 = .error e →
      e = "下载视频失败" ∨ e = "提取音频失败" ∨ e = "人声分离失败" ∨ e = "合成视频失败") := by
  refine ⟨?_, ?_, ?_, ?_⟩
  · intro rc fs base dir hrc
    unfold remove_vocals_with_demucs
    rw [if_pos hrc]
  · intro fs base dir
    unfold remove_vocals_with_demucs
    rw [if_neg (by simp)]
  · intro rc fs base dir p h
    unfold remove_vocals_with_demucs at h
    by_cases hrc : rc ≠ 0
    · rw [if_pos hrc] at h
      exact absurd h (by simp)
    · rw [if_neg hrc] at h
      have hmem := List.mem_of_find?_eq_some h
      have hp := List.find?_some h
      obtain ⟨m, hm, rfl⟩ := List.mem_map.mp hmem
      refine ⟨⟨m, hm, rfl⟩, ?_⟩
      simpa using hp
  · intro env fs url wd e h
    unfold vr_pipeline_body at h
    repeat' split at h
    all_goals try simp_all
    all_goals
      rcases hr : remove_vocals_with_demucs env.demucs_returncode
          ((wd ++ "/demucs_output") :: (wd ++ "/audio.mp3") ::
            (wd ++ "/original" ++ extOf url) ::
            (fs ++ List.map (fun m => demucsCandidate (wd ++ "/demucs_output") m "audio")
              env.demucs_models_written))
          "audio" (wd ++ "/demucs_output") with _ | p <;>
        simp [hr] at h <;> simp_all

theorem c8_demucs_search_witness :
    remove_vocals_with_demucs 1 [] "audio" "out" = none ∧
    remove_vocals_with_demucs 0
      ["out/htdemucs_ft/audio/no_vocals.wav"] "audio" "out" =
      some "out/htdemucs_ft/audio/no_vocals.wav" := by
  have h1 := c8_demucs_search.1 1 [] "audio" "out" (by decide)
  have h2 := c8_demucs_search.2.1 ["out/htdemucs_ft/audio/no_vocals.wav"] "audio" "out"
  exact ⟨h1, by rw [h2]; decide⟩

/-! #### C9 — video-mode composite output -/

theorem composite_result_success {dubs : DubStore} {cache : CacheStore} {fs : List String}
    {task : UserDubbing} {env : CompositeEnv} {wd gwd p : String}
    (h : (process_composite_video_task dubs cache fs task env wd gwd).result = .success p) :
    (composite_pipeline_body cache (wd :: fs) task env wd gwd).outcome = .ok p ∧
    (process_composite_video_task dubs cache fs task env wd gwd).stack =
      (composite_pipeline_body cache (wd :: fs) task env wd gwd).stack := by
  unfold process_composite_video_task at h ⊢
  rcases hb : (composite_pipeline_body cache (wd :: fs) task env wd gwd).outcome with e | q
  · simp [hb] at h
  · simp [hb] at h ⊢
    simp [h]

theorem video_task_success {cache : CacheStore} {fs : List String} {task : UserDubbing}
    {env : CompositeEnv} {wd p : String}
    (h : (process_video_dubbing_task cache fs task env wd).outcome = .ok p) :
    ∃ inv, (process_video_dubbing_task cache fs task env wd).stack = some inv ∧
      (∃ uvp, task.user_video_path = some uvp ∧
        inv.bottom = osJoin server_dir (lstripSlash uvp)) ∧
      (inv.top = MUTE_VIDEO_CACHE_DIR ++ "/" ++ get_url_hash task.original_video_url ++
          "_mute" ++ extOf task.original_video_url ∨
        inv.top = wd ++ "/original" ++ extOf task.original_video_url) ∧
      inv.width = 720 := by
  unfold process_video_dubbing_task at h ⊢
  by_cases h1 : (MUTE_VIDEO_CACHE_DIR ++ "/" ++ get_url_hash task.original_video_url ++
      "_mute" ++ extOf task.original_video_url) ∈ fs
  · cases huvp : task.user_video_path with
    | none => simp [h1, huvp] at h
    | some uvp =>
      by_cases h2 : uvp = ""
      · simp [h1, huvp, h2] at h
      · by_cases h3 : osJoin server_dir (lstripSlash uvp) ∈ fs
        · cases h4 : env.stack_ok with
          | false => simp [h1, huvp, h2, h3, h4] at h
          | true =>
            simp [h1, huvp, h2, h3, h4] at h ⊢
        · simp [h1, huvp, h2, h3] at h
  · cases hd : env.download_ok with
    | false => simp [h1, hd] at h
    | true =>
      cases huvp : task.user_video_path with
      | none => simp [h1, hd, huvp] at h
      | some uvp =>
        by_cases h2 : uvp = ""
        · simp [h1, hd, huvp, h2] at h
        · by_cases h3 : osJoin server_dir (lstripSlash uvp) ∈
              ((wd ++ "/original" ++ extOf task.original_video_url) :: fs)
          · cases h4 : env.stack_ok with
            | false => simp [h1, hd, huvp, h2, h3, h4] at h
            | true =>
              simp [h1, hd, huvp, h2, h3, h4] at h ⊢
          · simp [h1, hd, huvp, h2, h3] at h

/-- C9: a video-mode composite-dubbing job that succeeds has stacked the
source video (the cached muted copy, or the fresh download of the source
URL) on top and the user's video on the bottom; the ffmpeg filter graph of
the invocation stretches both inputs to exactly 720×720 with
`force_original_aspect_ratio=0` (no letterboxing), stacks them vertically
into a 720×1440 (1:2 portrait) picture, and the only audio mapped into the
output is `1:a?` — the audio of input 1, the user's video, never the
source's. -/
theorem c9_video_mode (dubs : DubStore) (cache : CacheStore) (fs : List String)
    (task : UserDubbing) (env : CompositeEnv) (wd gwd p : String)
    (hmode : taskMode task = "video")
    (hok : (process_composite_video_task dubs cache fs task env wd gwd).result = .success p) :
    ∃ inv, (process_composite_video_task dubs cache fs task env wd gwd).stack = some inv ∧
      (∃ uvp, task.user_video_path = some uvp ∧
        inv.bottom = osJoin server_dir (lstripSlash uvp)) ∧
      (inv.top = MUTE_VIDEO_CACHE_DIR ++ "/" ++ get_url_hash task.original_video_url ++
          "_mute" ++ extOf task.original_video_url ∨
        inv.top = wd ++ "/original" ++ extOf task.original_video_url) ∧
      inv.width = 720 ∧
      stack_filter_complex 720 = renderGraph (stackFilterGraph 720) ∧
      evalGraphLabel (stackFilterGraph 720) "v" =
        some (.vstacked (.scaleExact (.input 0) 720 720)
          (.scaleExact (.input 1) 720 720)) ∧
      (∀ inDims, frameDims inDims
        (.vstacked (.scaleExact (.input 0) 720 720) (.scaleExact (.input 1) 720 720)) =
        (720, 1440)) ∧
      stack_videos_vertical_cmd inv.top inv.bottom inv.output 720 =
        ["ffmpeg", "-y", "-i", inv.top, "-i", inv.bottom,
         "-filter_complex", stack_filter_complex 720,
         "-map", "[v]", "-map", "1:a?", "-c:v", "libx264", "-preset", "fast",
         "-crf", "23", "-c:a", "aac", "-shortest", inv.output] ∧
      audioInputOfMap "1:a?" = some 1 := by
  obtain ⟨hbody, hstack⟩ := composite_result_success hok
  have hvid : composite_pipeline_body cache (wd :: fs) task env wd gwd =
      process_video_dubbing_task cache (wd :: fs) task env wd := by
    unfold composite_pipeline_body
    rw [hmode]
    simp
  rw [hvid] at hbody hstack
  obtain ⟨inv, hinv, hbot, htop, hw⟩ := video_task_success hbody
  rw [hinv] at hstack
  exact ⟨inv, hstack, hbot, htop, hw, by decide, by decide, fun _ => rfl, rfl, by decide⟩

theorem hexChar_mem_hexDigits (i : Fin 16) : hexChar i ∈ "0123456789abcdef".data := by
  revert i
  decide

/-- C5 amended: the cache-key derivation is a stable deterministic function
of the source URL producing a fixed-length digest — every digest is exactly
16 lowercase hex characters — but it is not injective (see the
counterexample): distinct source URLs can collide. -/
theorem c5_fixed_length_digest (url : String) :
    (get_url_hash url).length = 16 ∧
      ∀ c ∈ (get_url_hash url).data, c ∈ "0123456789abcdef".data := by
  constructor
  · show (get_url_hash url).data.length = 16
    rw [get_url_hash_data, List.length_map, take16_md5Nibbles_length]
  · intro c hc
    rw [get_url_hash_data] at hc
    obtain ⟨i, _, rfl⟩ := List.mem_map.mp hc
    exact hexChar_mem_hexDigits i

theorem c9_video_mode_witness :
    taskMode c9_task = "video" ∧
    (process_composite_video_task [c9_task] [] c9_fs c9_task c9_env "wd" "gwd").result =
      .success "/user_dubbings/u1_7_video_dubbing.mp4" ∧
    ∃ inv, (process_composite_video_task [c9_task] [] c9_fs c9_task c9_env
        "wd" "gwd").stack = some inv ∧
      (∃ uvp, c9_task.user_video_path = some uvp ∧
        inv.bottom = osJoin server_dir (lstripSlash uvp)) ∧
      (inv.top = MUTE_VIDEO_CACHE_DIR ++ "/" ++ get_url_hash c9_task.original_video_url ++
          "_mute" ++ extOf c9_task.original_video_url ∨
        inv.top = "wd" ++ "/original" ++ extOf c9_task.original_video_url) ∧
      inv.width = 720 ∧
      stack_filter_complex 720 = renderGraph (stackFilterGraph 720) ∧
      evalGraphLabel (stackFilterGraph 720) "v" =
        some (.vstacked (.scaleExact (.input 0) 720 720)
          (.scaleExact (.input 1) 720 720)) ∧
      (∀ inDims, frameDims inDims
        (.vstacked (.scaleExact (.input 0) 720 720) (.scaleExact (.input 1) 720 720)) =
        (720, 1440)) ∧
      stack_videos_vertical_cmd inv.top inv.bottom inv.output 720 =
        ["ffmpeg", "-y", "-i", inv.top, "-i", inv.bottom,
         "-filter_complex", stack_filter_complex 720,
         "-map", "[v]", "-map", "1:a?", "-c:v", "libx264", "-preset", "fast",
         "-crf", "23", "-c:a", "aac", "-shortest", inv.output] ∧
      audioInputOfMap "1:a?" = some 1 :=
  ⟨by decide, by decide,
    c9_video_mode [c9_task] [] c9_fs c9_task c9_env "wd" "gwd"
      "/user_dubbings/u1_7_video_dubbing.mp4" (by decide) (by decide)⟩

theorem c10_terminal_no_exit_witness :
    (∀ t ∈ c10_s2.vr, t.status.terminal →
      ∀ t' ∈ c10_s3.vr, t'.id = t.id → t'.status = t.status) ∧
    (∀ d ∈ c10_s2.dubs, d.status.terminal →
      ∀ d' ∈ c10_s3.dubs, d'.id = d.id → d'.status = d.status) :=
  c10_terminal_no_exit c10_s2 c10_s3
    (Reachable.step
      (Reachable.step (Reachable.init [])
        (Step.requestVocalRemoval c10_s0 "u" 1 (by simp [c10_s0])))
      (Step.processVocalRemoval c10_s1 c10_task c10_env "wd" (by decide) rfl))
    (Step.vocalWorkerStartup c10_s2)

end Peiyin
